import Mathlib

/-!
# xk6-nats: stream and consumer management over a JetStream transport

A shallow embedding of `jetstream.go`, `consumer.go`, `options.go` and
`errors.go`, with the option structs of `connection.go`.

* Go `int`, `int64` and `time.Duration` values are integers; arithmetic that can
  leave the 64-bit signed range is wrapped explicitly with `wrapInt64`
  (`int` is taken to be 64 bits wide, as on the 64-bit platforms k6 is released for).
* Go slices are lists (a nil slice and an empty slice are both `[]`).
* The `nats.JetStreamContext` held by a `JetStream` value is an external
  collaborator.  It is a record of response functions over an arbitrary state
  type `σ`; every operation threads the state through the calls it makes and
  records each call, with its arguments, in a trace.
-/

namespace XK6Nats

/-! ## Machine arithmetic and durations -/

/-- Two's-complement wrap of an integer into the signed 64-bit range. -/
def wrapInt64 (x : Int) : Int := (x + 2 ^ 63) % 2 ^ 64 - 2 ^ 63

/-- Largest `int64`. -/
def maxInt64 : Int := 2 ^ 63 - 1

/-- Smallest `int64`. -/
def minInt64 : Int := -(2 ^ 63)

/-- The Go type `time.Duration`: a count of nanoseconds held in an `int64`. -/
abbrev Duration := Int

/-- The Go constant `time.Second`, in nanoseconds. -/
def Second : Duration := 1000000000

/-- The Go expression `time.Duration(n) * time.Second` (an `int64` product). -/
def secondsToDuration (n : Int) : Duration := wrapInt64 (n * Second)

/-- The function `ParseDuration` of `options.go`. -/
def ParseDuration (seconds : Int) : Duration := secondsToDuration seconds

/-- The Go type `time.Time` as `time.Unix` builds it: `ext` is the `int64` count
of seconds since January 1 of year 1, `nsec` the nanoseconds within that second
(the `wall` field; the location is always `Local`). -/
structure Time where
  ext : Int
  nsec : Int
deriving DecidableEq, Repr

/-- The Go constant `unixToInternal` of package `time`: the seconds from January
1 of year 1 to the Unix epoch, `(1969*365 + 1969/4 - 1969/100 + 1969/400) * 86400`. -/
def unixToInternal : Int := 62135596800

/-- The instant a `Time` denotes, in whole seconds after the Unix epoch; a
negative value is an instant before the epoch. -/
def Time.secondsAfterEpoch (t : Time) : Int := t.ext - unixToInternal

/-- The Go function `time.Unix`: it brings `nsec` into `[0, 1e9)`, carrying into
`sec` (Go's `/` truncates toward zero), and stores `sec + unixToInternal`.  All
arithmetic on `sec` is `int64` arithmetic. -/
def timeUnix (sec nsec : Int) : Time :=
  if nsec < 0 ∨ nsec ≥ 1000000000 then
    let n := Int.tdiv nsec 1000000000
    let sec := wrapInt64 (sec + n)
    let nsec := nsec - n * 1000000000
    if nsec < 0 then
      { ext := wrapInt64 (wrapInt64 (sec - 1) + unixToInternal), nsec := nsec + 1000000000 }
    else { ext := wrapInt64 (sec + unixToInternal), nsec := nsec }
  else { ext := wrapInt64 (sec + unixToInternal), nsec := nsec }

/-- The function `ParseTimestamp` of `options.go`. -/
def ParseTimestamp (timestamp : Int) : Time := timeUnix timestamp 0

/-! ## Errors (`errors.go`) -/

/-- A Go `error` value: an error produced outside this package, known by its
text; the client library's sentinel `nats.ErrTimeout`, which `PullMessages`
recognises by identity; or a `*NatsError` with its optional cause. -/
inductive GoError where
  | foreign (text : String)
  | libTimeout
  | nats (Code : Int) (Message : String) (Err : Option GoError)
deriving Repr

/-- The Go comparison `err == nats.ErrTimeout`. -/
def GoError.isLibTimeout : GoError → Bool
  | GoError.libTimeout => true
  | _ => false

/-- The text a Go `error` value renders as, its method `Error()`.  A foreign
error renders as its text, the sentinel `nats.ErrTimeout` as the library's
"nats: timeout", and a `*NatsError` as `(*NatsError).Error` of `errors.go`
prescribes: `fmt.Sprintf("nats error [%d]: %s: %v", Code, Message, Err)` when
`Err` is not nil and `fmt.Sprintf("nats error [%d]: %s", Code, Message)`
otherwise, where `%v` of an error is its `Error()`. -/
def GoError.Error : GoError → String
  | GoError.foreign text => text
  | GoError.libTimeout => "nats: timeout"
  | GoError.nats code message (some cause) =>
    "nats error [" ++ toString code ++ "]: " ++ message ++ ": " ++ cause.Error
  | GoError.nats code message none => "nats error [" ++ toString code ++ "]: " ++ message

/-- The struct `NatsError`. -/
structure NatsError where
  Code : Int
  Message : String
  Err : Option GoError
deriving Repr

/-- The method `(*NatsError).Unwrap`. -/
def NatsError.Unwrap (e : NatsError) : Option GoError := e.Err

/-- A `*NatsError` seen through the `error` interface. -/
def NatsError.toError (e : NatsError) : GoError := GoError.nats e.Code e.Message e.Err

/-- The method `(*NatsError).Error`. -/
def NatsError.Error (e : NatsError) : String :=
  match e.Err with
  | some cause =>
    "nats error [" ++ toString e.Code ++ "]: " ++ e.Message ++ ": " ++ cause.Error
  | none => "nats error [" ++ toString e.Code ++ "]: " ++ e.Message

/-- The constructor function `NewNatsError`. -/
def NewNatsError (code : Int) (message : String) (err : Option GoError) : NatsError :=
  { Code := code, Message := message, Err := err }

/-- The function `NewConnectionError`. -/
def NewConnectionError (message : String) (err : Option GoError) : NatsError :=
  NewNatsError 1002 message err

def ErrNoVUState : NatsError := NewNatsError 1001 "no VU state available" none
def ErrConnectionClosed : NatsError := NewNatsError 1002 "connection is closed" none
def ErrInvalidConfig : NatsError := NewNatsError 1003 "invalid configuration" none
def ErrStreamNotFound : NatsError := NewNatsError 1004 "stream not found" none
def ErrConsumerNotFound : NatsError := NewNatsError 1005 "consumer not found" none
def ErrTimeout : NatsError := NewNatsError 1006 "operation timed out" none
def ErrNoMessage : NatsError := NewNatsError 1007 "no message available" none

/-! ## Configuration objects of this package -/

/-- The struct `StreamConfig` of `jetstream.go`. -/
structure StreamConfig where
  Name : String := ""
  Subjects : List String := []
  Retention : String := ""
  MaxBytes : Int := 0
  MaxMsgs : Int := 0
  MaxAge : Int := 0
  Replicas : Int := 0
  Discard : String := ""
  Storage : String := ""
deriving DecidableEq, Repr

/-- The struct `ConsumerConfig` of `consumer.go`. -/
structure ConsumerConfig where
  Stream : String := ""
  Name : String := ""
  Durable : String := ""
  DeliverPolicy : String := ""
  OptStartSeq : Nat := 0
  OptStartTime : Int := 0
  AckPolicy : String := ""
  AckWait : Int := 0
  MaxDeliver : Int := 0
  BackOff : List Int := []
  FilterSubject : String := ""
  ReplayPolicy : String := ""
  SampleFreq : String := ""
deriving DecidableEq, Repr

/-! ## Descriptors of the client library (`nats.go`)

Only the fields this package reads or writes are named.  Every other field of
the library structs is carried, uninterpreted, in `Other`; a composite literal
that does not mention them leaves them at their zero value, `[]`. -/

inductive RetentionPolicy where
  | LimitsPolicy | InterestPolicy | WorkQueuePolicy
deriving DecidableEq, Repr

inductive DiscardPolicy where
  | DiscardOld | DiscardNew
deriving DecidableEq, Repr

inductive StorageType where
  | FileStorage | MemoryStorage
deriving DecidableEq, Repr

inductive DeliverPolicy where
  | DeliverAllPolicy | DeliverLastPolicy | DeliverNewPolicy
  | DeliverByStartSequencePolicy | DeliverByStartTimePolicy | DeliverLastPerSubjectPolicy
deriving DecidableEq, Repr

inductive AckPolicy where
  | AckNonePolicy | AckAllPolicy | AckExplicitPolicy
deriving DecidableEq, Repr

inductive ReplayPolicy where
  | ReplayInstantPolicy | ReplayOriginalPolicy
deriving DecidableEq, Repr

/-- Fields of a library struct that this package never reads or writes. -/
abbrev OtherFields := List (String × String)

/-- The library struct `nats.StreamConfig`. -/
structure NatsStreamConfig where
  Name : String := ""
  Subjects : List String := []
  Retention : RetentionPolicy := RetentionPolicy.LimitsPolicy
  MaxBytes : Int := 0
  MaxMsgs : Int := 0
  MaxAge : Duration := 0
  Replicas : Int := 0
  Discard : DiscardPolicy := DiscardPolicy.DiscardOld
  Storage : StorageType := StorageType.FileStorage
  Other : OtherFields := []
deriving DecidableEq, Repr

/-- The library struct `nats.ConsumerConfig`. -/
structure NatsConsumerConfig where
  Durable : String := ""
  DeliverPolicy : DeliverPolicy := DeliverPolicy.DeliverAllPolicy
  OptStartSeq : Nat := 0
  OptStartTime : Option Time := none
  AckPolicy : AckPolicy := AckPolicy.AckNonePolicy
  AckWait : Duration := 0
  MaxDeliver : Int := 0
  BackOff : List Duration := []
  FilterSubject : String := ""
  ReplayPolicy : ReplayPolicy := ReplayPolicy.ReplayInstantPolicy
  Other : OtherFields := []
deriving DecidableEq, Repr

/-- The library struct `nats.StreamInfo`; only `Config` is read here. -/
structure StreamInfo where
  Config : NatsStreamConfig
deriving DecidableEq, Repr

/-- The library struct `nats.ConsumerInfo`; only `Config` is read here. -/
structure ConsumerInfo where
  Config : NatsConsumerConfig
deriving DecidableEq, Repr

/-- The library struct `nats.AccountInfo`; this package only passes it on. -/
structure AccountInfo where
  Other : OtherFields := []
deriving DecidableEq, Repr

/-- The library struct `nats.Msg`, with its subject and payload. -/
structure Msg where
  Subject : String := ""
  Data : List UInt8 := []
deriving DecidableEq, Repr

/-! ## The transport (`nats.JetStreamContext`, `nats.Subscription`) -/

/-- One call on the transport, with the arguments it was given.  `subscribe`
carries the durable name of the `nats.Durable` option when one was passed;
`fetch` carries the batch size and the `nats.MaxWait` duration. -/
inductive TransportCall where
  | publish (subject : String) (data : List UInt8)
  | publishAsync (subject : String) (data : List UInt8)
  | accountInfo
  | pullSubscribe (subject : String) (durable : String)
  | subscribe (subject : String) (durable : Option String)
  | fetch (batch : Int) (maxWait : Duration)
  | addStream (cfg : NatsStreamConfig)
  | updateStream (cfg : NatsStreamConfig)
  | deleteStream (name : String)
  | streamInfo (name : String)
  | streamNames
  | purgeStream (name : String)
  | addConsumer (stream : String) (cfg : NatsConsumerConfig)
  | updateConsumer (stream : String) (cfg : NatsConsumerConfig)
  | deleteConsumer (stream : String) (consumer : String)
  | consumerInfo (stream : String) (consumer : String)
  | consumerNames (stream : String)
deriving DecidableEq, Repr

/-- The library type `nats.Subscription`, as far as this package uses it: its
method `Fetch(batch, nats.MaxWait(d))`, which returns a message slice and an
error. -/
structure Subscription (σ : Type) where
  Fetch : Int → Duration → σ → (List Msg × Option GoError) × σ

/-- The primitives of the interface `nats.JetStreamContext` that this package
calls.  Each takes the transport state and returns its reply together with the
state it leaves behind.  The callback handed to `Subscribe` is left out: it runs
only when a message is delivered, not during the registration call. -/
structure JetStreamContext (σ : Type) where
  Publish : String → List UInt8 → σ → Option GoError × σ
  PublishAsync : String → List UInt8 → σ → Option GoError × σ
  AccountInfo : σ → Except GoError AccountInfo × σ
  PullSubscribe : String → String → σ → Except GoError (Subscription σ) × σ
  Subscribe : String → Option String → σ → Except GoError (Subscription σ) × σ
  AddStream : NatsStreamConfig → σ → Except GoError StreamInfo × σ
  UpdateStream : NatsStreamConfig → σ → Except GoError StreamInfo × σ
  DeleteStream : String → σ → Option GoError × σ
  StreamInfo : String → σ → Except GoError StreamInfo × σ
  StreamNames : σ → List String × σ
  PurgeStream : String → σ → Option GoError × σ
  AddConsumer : String → NatsConsumerConfig → σ → Except GoError ConsumerInfo × σ
  UpdateConsumer : String → NatsConsumerConfig → σ → Except GoError ConsumerInfo × σ
  DeleteConsumer : String → String → σ → Option GoError × σ
  ConsumerInfo : String → String → σ → Except GoError ConsumerInfo × σ
  ConsumerNames : String → σ → List String × σ

/-- The struct `JetStream` of `module.go`, without its `vu` field, which the
stream and consumer operations do not use.  `js = none` is the nil interface
value. -/
structure JetStream (σ : Type) where
  js : Option (JetStreamContext σ)

/-- What an operation returning `error` leaves behind: the returned error
(`none` for `nil`), the transport calls it made, in order, and the transport
state after them. -/
structure Outcome (σ : Type) where
  err : Option NatsError
  calls : List TransportCall
  state : σ

/-- What an operation returning a value and an `error` leaves behind: the
returned value (`none` for a nil pointer, `[]` for a nil slice), then as for
`Outcome`. -/
structure Result (σ : Type) (α : Type) where
  val : α
  err : Option NatsError
  calls : List TransportCall
  state : σ

/-! ## Policy translation

The six `switch` statements of `AddStream` and `AddConsumer`, one function per
statement.  A Go `switch` on a string compares with `==`, case by case. -/

/-- The retention `switch` of `AddStream`. -/
def retentionPolicy (s : String) : RetentionPolicy :=
  if s = "limits" then RetentionPolicy.LimitsPolicy
  else if s = "interest" then RetentionPolicy.InterestPolicy
  else if s = "workqueue" then RetentionPolicy.WorkQueuePolicy
  else RetentionPolicy.LimitsPolicy

/-- The discard `switch` of `AddStream`. -/
def discardPolicy (s : String) : DiscardPolicy :=
  if s = "old" then DiscardPolicy.DiscardOld
  else if s = "new" then DiscardPolicy.DiscardNew
  else DiscardPolicy.DiscardOld

/-- The storage `switch` of `AddStream`. -/
def storageType (s : String) : StorageType :=
  if s = "file" then StorageType.FileStorage
  else if s = "memory" then StorageType.MemoryStorage
  else StorageType.FileStorage

/-- The deliver-policy `switch` of `AddConsumer`. -/
def deliverPolicy (s : String) : DeliverPolicy :=
  if s = "all" then DeliverPolicy.DeliverAllPolicy
  else if s = "last" then DeliverPolicy.DeliverLastPolicy
  else if s = "new" then DeliverPolicy.DeliverNewPolicy
  else if s = "by_start_sequence" then DeliverPolicy.DeliverByStartSequencePolicy
  else if s = "by_start_time" then DeliverPolicy.DeliverByStartTimePolicy
  else if s = "last_per_subject" then DeliverPolicy.DeliverLastPerSubjectPolicy
  else DeliverPolicy.DeliverAllPolicy

/-- The ack-policy `switch` of `AddConsumer`. -/
def ackPolicy (s : String) : AckPolicy :=
  if s = "none" then AckPolicy.AckNonePolicy
  else if s = "all" then AckPolicy.AckAllPolicy
  else if s = "explicit" then AckPolicy.AckExplicitPolicy
  else AckPolicy.AckExplicitPolicy

/-- The replay-policy `switch` of `AddConsumer`. -/
def replayPolicy (s : String) : ReplayPolicy :=
  if s = "instant" then ReplayPolicy.ReplayInstantPolicy
  else if s = "original" then ReplayPolicy.ReplayOriginalPolicy
  else ReplayPolicy.ReplayInstantPolicy

/-! ## Stream operations (`jetstream.go`) -/

/-- The composite literal `&nats.StreamConfig{...}` built by `AddStream`. -/
def AddStream.streamConfig (config : StreamConfig) : NatsStreamConfig :=
  { Name := config.Name
    Subjects := config.Subjects
    Retention := retentionPolicy config.Retention
    MaxBytes := config.MaxBytes
    MaxMsgs := config.MaxMsgs
    MaxAge := secondsToDuration config.MaxAge
    Replicas := config.Replicas
    Discard := discardPolicy config.Discard
    Storage := storageType config.Storage }

/-- The method `(*JetStream).AddStream`. -/
def AddStream {σ : Type} (j : JetStream σ) (config : StreamConfig) (s : σ) : Outcome σ :=
  match j.js with
  | none => ⟨some ErrConnectionClosed, [], s⟩
  | some js =>
    if config.Name = "" then
      ⟨some (NewNatsError 1015 "stream name cannot be empty" none), [], s⟩
    else
      let streamConfig := AddStream.streamConfig config
      match js.AddStream streamConfig s with
      | (Except.error err, s1) =>
        ⟨some (NewNatsError 1016 "failed to add stream" (some err)),
          [TransportCall.addStream streamConfig], s1⟩
      | (Except.ok _, s1) => ⟨none, [TransportCall.addStream streamConfig], s1⟩

/-- The five guarded assignments of `UpdateStream`, applied in source order to a
copy of the descriptor the transport returned. -/
def UpdateStream.merge (existing : NatsStreamConfig) (config : StreamConfig) :
    NatsStreamConfig :=
  let streamConfig := existing
  let streamConfig :=
    if config.Subjects.length > 0 then { streamConfig with Subjects := config.Subjects }
    else streamConfig
  let streamConfig :=
    if config.MaxBytes > 0 then { streamConfig with MaxBytes := config.MaxBytes }
    else streamConfig
  let streamConfig :=
    if config.MaxMsgs > 0 then { streamConfig with MaxMsgs := config.MaxMsgs }
    else streamConfig
  let streamConfig :=
    if config.MaxAge > 0 then { streamConfig with MaxAge := secondsToDuration config.MaxAge }
    else streamConfig
  let streamConfig :=
    if config.Replicas > 0 then { streamConfig with Replicas := config.Replicas }
    else streamConfig
  streamConfig

/-- The method `(*JetStream).UpdateStream`. -/
def UpdateStream {σ : Type} (j : JetStream σ) (config : StreamConfig) (s : σ) : Outcome σ :=
  match j.js with
  | none => ⟨some ErrConnectionClosed, [], s⟩
  | some js =>
    if config.Name = "" then
      ⟨some (NewNatsError 1015 "stream name cannot be empty" none), [], s⟩
    else
      match js.StreamInfo config.Name s with
      | (Except.error err, s1) =>
        ⟨some (NewNatsError 1017 "stream not found" (some err)),
          [TransportCall.streamInfo config.Name], s1⟩
      | (Except.ok info, s1) =>
        let streamConfig := UpdateStream.merge info.Config config
        match js.UpdateStream streamConfig s1 with
        | (Except.error err, s2) =>
          ⟨some (NewNatsError 1018 "failed to update stream" (some err)),
            [TransportCall.streamInfo config.Name, TransportCall.updateStream streamConfig], s2⟩
        | (Except.ok _, s2) =>
          ⟨none,
            [TransportCall.streamInfo config.Name, TransportCall.updateStream streamConfig], s2⟩

/-- The descriptors an operation handed to the transport's `UpdateStream`. -/
def submittedStreamUpdates : List TransportCall → List NatsStreamConfig
  | [] => []
  | TransportCall.updateStream cfg :: rest => cfg :: submittedStreamUpdates rest
  | _ :: rest => submittedStreamUpdates rest

/-- The descriptors an operation handed to the transport's `AddStream`. -/
def submittedStreamAdds : List TransportCall → List NatsStreamConfig
  | [] => []
  | TransportCall.addStream cfg :: rest => cfg :: submittedStreamAdds rest
  | _ :: rest => submittedStreamAdds rest

/-! ## Consumer operations (`consumer.go`) -/

/-- The composite literal `&nats.ConsumerConfig{...}` built by `AddConsumer`;
`OptStartTime` and `BackOff` are not mentioned in it. -/
def AddConsumer.literal (config : ConsumerConfig) : NatsConsumerConfig :=
  { Durable := config.Durable
    DeliverPolicy := deliverPolicy config.DeliverPolicy
    OptStartSeq := config.OptStartSeq
    AckPolicy := ackPolicy config.AckPolicy
    AckWait := secondsToDuration config.AckWait
    MaxDeliver := config.MaxDeliver
    FilterSubject := config.FilterSubject
    ReplayPolicy := replayPolicy config.ReplayPolicy }

/-- The `for _, backoff := range config.BackOff` loop of `AddConsumer`: one
`append` per entry, in slice order, starting from the slice `acc`. -/
def AddConsumer.appendBackOff (acc : List Duration) (backOff : List Int) : List Duration :=
  backOff.foldl (fun out backoff => out ++ [secondsToDuration backoff]) acc

/-- The descriptor `AddConsumer` has built when it reaches the transport call:
the literal, then the two guarded assignments. -/
def AddConsumer.consumerConfig (config : ConsumerConfig) : NatsConsumerConfig :=
  let consumerConfig := AddConsumer.literal config
  let consumerConfig :=
    if config.OptStartTime > 0 then
      { consumerConfig with OptStartTime := some (timeUnix config.OptStartTime 0) }
    else consumerConfig
  let consumerConfig :=
    if config.BackOff.length > 0 then
      { consumerConfig with
        BackOff := AddConsumer.appendBackOff consumerConfig.BackOff config.BackOff }
    else consumerConfig
  consumerConfig

/-- The method `(*JetStream).AddConsumer`. -/
def AddConsumer {σ : Type} (j : JetStream σ) (streamName : String) (config : ConsumerConfig)
    (s : σ) : Outcome σ :=
  match j.js with
  | none => ⟨some ErrConnectionClosed, [], s⟩
  | some js =>
    if streamName = "" then
      ⟨some (NewNatsError 1015 "stream name cannot be empty" none), [], s⟩
    else if config.Durable = "" then
      ⟨some (NewNatsError 1024 "consumer durable name cannot be empty" none), [], s⟩
    else
      let consumerConfig := AddConsumer.consumerConfig config
      match js.AddConsumer streamName consumerConfig s with
      | (Except.error err, s1) =>
        ⟨some (NewNatsError 1025 "failed to add consumer" (some err)),
          [TransportCall.addConsumer streamName consumerConfig], s1⟩
      | (Except.ok _, s1) =>
        ⟨none, [TransportCall.addConsumer streamName consumerConfig], s1⟩

/-- The three guarded assignments of `UpdateConsumer`, applied in source order
to a copy of the descriptor the transport returned. -/
def UpdateConsumer.merge (existing : NatsConsumerConfig) (config : ConsumerConfig) :
    NatsConsumerConfig :=
  let consumerConfig := existing
  let consumerConfig :=
    if config.FilterSubject ≠ "" then
      { consumerConfig with FilterSubject := config.FilterSubject }
    else consumerConfig
  let consumerConfig :=
    if config.AckWait > 0 then
      { consumerConfig with AckWait := secondsToDuration config.AckWait }
    else consumerConfig
  let consumerConfig :=
    if config.MaxDeliver > 0 then { consumerConfig with MaxDeliver := config.MaxDeliver }
    else consumerConfig
  consumerConfig

/-- The method `(*JetStream).UpdateConsumer`. -/
def UpdateConsumer {σ : Type} (j : JetStream σ) (streamName : String)
    (config : ConsumerConfig) (s : σ) : Outcome σ :=
  match j.js with
  | none => ⟨some ErrConnectionClosed, [], s⟩
  | some js =>
    if streamName = "" then
      ⟨some (NewNatsError 1015 "stream name cannot be empty" none), [], s⟩
    else if config.Durable = "" then
      ⟨some (NewNatsError 1024 "consumer durable name cannot be empty" none), [], s⟩
    else
      match js.ConsumerInfo streamName config.Durable s with
      | (Except.error err, s1) =>
        ⟨some (NewNatsError 1026 "consumer not found" (some err)),
          [TransportCall.consumerInfo streamName config.Durable], s1⟩
      | (Except.ok info, s1) =>
        let consumerConfig := UpdateConsumer.merge info.Config config
        match js.UpdateConsumer streamName consumerConfig s1 with
        | (Except.error err, s2) =>
          ⟨some (NewNatsError 1027 "failed to update consumer" (some err)),
            [TransportCall.consumerInfo streamName config.Durable,
              TransportCall.updateConsumer streamName consumerConfig], s2⟩
        | (Except.ok _, s2) =>
          ⟨none,
            [TransportCall.consumerInfo streamName config.Durable,
              TransportCall.updateConsumer streamName consumerConfig], s2⟩

/-- The descriptors an operation handed to the transport's `AddConsumer`. -/
def submittedConsumerAdds : List TransportCall → List NatsConsumerConfig
  | [] => []
  | TransportCall.addConsumer _ cfg :: rest => cfg :: submittedConsumerAdds rest
  | _ :: rest => submittedConsumerAdds rest

/-- The descriptors an operation handed to the transport's `UpdateConsumer`. -/
def submittedConsumerUpdates : List TransportCall → List NatsConsumerConfig
  | [] => []
  | TransportCall.updateConsumer _ cfg :: rest => cfg :: submittedConsumerUpdates rest
  | _ :: rest => submittedConsumerUpdates rest

/-! ## The remaining operations of `jetstream.go` -/

/-- The method `(*JetStream).DeleteStream`. -/
def DeleteStream {σ : Type} (j : JetStream σ) (streamName : String) (s : σ) : Outcome σ :=
  match j.js with
  | none => ⟨some ErrConnectionClosed, [], s⟩
  | some js =>
    if streamName = "" then
      ⟨some (NewNatsError 1015 "stream name cannot be empty" none), [], s⟩
    else
      match js.DeleteStream streamName s with
      | (some err, s1) =>
        ⟨some (NewNatsError 1019 "failed to delete stream" (some err)),
          [TransportCall.deleteStream streamName], s1⟩
      | (none, s1) => ⟨none, [TransportCall.deleteStream streamName], s1⟩

/-- The method `(*JetStream).StreamInfo`. -/
def JetStream.StreamInfo {σ : Type} (j : JetStream σ) (streamName : String) (s : σ) :
    Result σ (Option XK6Nats.StreamInfo) :=
  match j.js with
  | none => ⟨none, some ErrConnectionClosed, [], s⟩
  | some js =>
    if streamName = "" then
      ⟨none, some (NewNatsError 1015 "stream name cannot be empty" none), [], s⟩
    else
      match js.StreamInfo streamName s with
      | (Except.error err, s1) =>
        ⟨none, some (NewNatsError 1020 "failed to get stream info" (some err)),
          [TransportCall.streamInfo streamName], s1⟩
      | (Except.ok info, s1) => ⟨some info, none, [TransportCall.streamInfo streamName], s1⟩

/-- The method `(*JetStream).ListStreams`: the names are appended in the order
the transport's channel yields them. -/
def ListStreams {σ : Type} (j : JetStream σ) (s : σ) : Result σ (List String) :=
  match j.js with
  | none => ⟨[], some ErrConnectionClosed, [], s⟩
  | some js =>
    match js.StreamNames s with
    | (streamNames, s1) =>
      ⟨streamNames.foldl (fun streams name => streams ++ [name]) [], none,
        [TransportCall.streamNames], s1⟩

/-- The method `(*JetStream).Publish`. -/
def Publish {σ : Type} (j : JetStream σ) (subject : String) (data : List UInt8) (s : σ) :
    Outcome σ :=
  match j.js with
  | none => ⟨some ErrConnectionClosed, [], s⟩
  | some js =>
    if subject = "" then
      ⟨some (NewNatsError 1008 "subject cannot be empty" none), [], s⟩
    else
      match js.Publish subject data s with
      | (some err, s1) =>
        ⟨some (NewNatsError 1021 "failed to publish to jetstream" (some err)),
          [TransportCall.publish subject data], s1⟩
      | (none, s1) => ⟨none, [TransportCall.publish subject data], s1⟩

/-- The method `(*JetStream).PublishAsync`. -/
def PublishAsync {σ : Type} (j : JetStream σ) (subject : String) (data : List UInt8) (s : σ) :
    Outcome σ :=
  match j.js with
  | none => ⟨some ErrConnectionClosed, [], s⟩
  | some js =>
    if subject = "" then
      ⟨some (NewNatsError 1008 "subject cannot be empty" none), [], s⟩
    else
      match js.PublishAsync subject data s with
      | (some err, s1) =>
        ⟨some (NewNatsError 1022 "failed to publish async to jetstream" (some err)),
          [TransportCall.publishAsync subject data], s1⟩
      | (none, s1) => ⟨none, [TransportCall.publishAsync subject data], s1⟩

/-- The method `(*JetStream).GetStreamInfo`. -/
def GetStreamInfo {σ : Type} (j : JetStream σ) (streamName : String) (s : σ) :
    Result σ (Option StreamInfo) :=
  match j.js with
  | none => ⟨none, some ErrConnectionClosed, [], s⟩
  | some js =>
    if streamName = "" then
      ⟨none, some (NewNatsError 1015 "stream name cannot be empty" none), [], s⟩
    else
      match js.StreamInfo streamName s with
      | (Except.error err, s1) =>
        ⟨none, some (NewNatsError 1020 "failed to get stream info" (some err)),
          [TransportCall.streamInfo streamName], s1⟩
      | (Except.ok info, s1) => ⟨some info, none, [TransportCall.streamInfo streamName], s1⟩

/-- The method `(*JetStream).GetConsumerInfo`. -/
def GetConsumerInfo {σ : Type} (j : JetStream σ) (streamName consumerName : String) (s : σ) :
    Result σ (Option ConsumerInfo) :=
  match j.js with
  | none => ⟨none, some ErrConnectionClosed, [], s⟩
  | some js =>
    if streamName = "" then
      ⟨none, some (NewNatsError 1015 "stream name cannot be empty" none), [], s⟩
    else if consumerName = "" then
      ⟨none, some (NewNatsError 1024 "consumer name cannot be empty" none), [], s⟩
    else
      match js.ConsumerInfo streamName consumerName s with
      | (Except.error err, s1) =>
        ⟨none, some (NewNatsError 1029 "failed to get consumer info" (some err)),
          [TransportCall.consumerInfo streamName consumerName], s1⟩
      | (Except.ok info, s1) =>
        ⟨some info, none, [TransportCall.consumerInfo streamName consumerName], s1⟩

/-- The method `(*JetStream).GetAccountInfo`. -/
def GetAccountInfo {σ : Type} (j : JetStream σ) (s : σ) : Result σ (Option AccountInfo) :=
  match j.js with
  | none => ⟨none, some ErrConnectionClosed, [], s⟩
  | some js =>
    match js.AccountInfo s with
    | (Except.error err, s1) =>
      ⟨none, some (NewNatsError 1034 "failed to get account info" (some err)),
        [TransportCall.accountInfo], s1⟩
    | (Except.ok info, s1) => ⟨some info, none, [TransportCall.accountInfo], s1⟩

/-- The method `(*JetStream).PurgeStream`. -/
def PurgeStream {σ : Type} (j : JetStream σ) (streamName : String) (s : σ) : Outcome σ :=
  match j.js with
  | none => ⟨some ErrConnectionClosed, [], s⟩
  | some js =>
    if streamName = "" then
      ⟨some (NewNatsError 1015 "stream name cannot be empty" none), [], s⟩
    else
      match js.PurgeStream streamName s with
      | (some err, s1) =>
        ⟨some (NewNatsError 1035 "failed to purge stream" (some err)),
          [TransportCall.purgeStream streamName], s1⟩
      | (none, s1) => ⟨none, [TransportCall.purgeStream streamName], s1⟩

/-- The method `(*JetStream).DeleteMessage`; the sequence number is not used. -/
def DeleteMessage {σ : Type} (j : JetStream σ) (streamName : String) (_seq : Nat) (s : σ) :
    Outcome σ :=
  match j.js with
  | none => ⟨some ErrConnectionClosed, [], s⟩
  | some js =>
    if streamName = "" then
      ⟨some (NewNatsError 1015 "stream name cannot be empty" none), [], s⟩
    else
      match js.StreamInfo streamName s with
      | (Except.error err, s1) =>
        ⟨some (NewNatsError 1020 "stream not found" (some err)),
          [TransportCall.streamInfo streamName], s1⟩
      | (Except.ok _, s1) =>
        ⟨some (NewNatsError 1036 "message deletion not implemented in current NATS client"
            none),
          [TransportCall.streamInfo streamName], s1⟩

/-- The method `(*JetStream).GetStreamNames`. -/
def GetStreamNames {σ : Type} (j : JetStream σ) (s : σ) : Result σ (List String) :=
  match j.js with
  | none => ⟨[], some ErrConnectionClosed, [], s⟩
  | some js =>
    match js.StreamNames s with
    | (streamNames, s1) =>
      ⟨streamNames.foldl (fun streams name => streams ++ [name]) [], none,
        [TransportCall.streamNames], s1⟩

/-- The method `(*JetStream).GetConsumerNames`. -/
def GetConsumerNames {σ : Type} (j : JetStream σ) (streamName : String) (s : σ) :
    Result σ (List String) :=
  match j.js with
  | none => ⟨[], some ErrConnectionClosed, [], s⟩
  | some js =>
    if streamName = "" then
      ⟨[], some (NewNatsError 1015 "stream name cannot be empty" none), [], s⟩
    else
      match js.ConsumerNames streamName s with
      | (consumerNames, s1) =>
        ⟨consumerNames.foldl (fun consumers name => consumers ++ [name]) [], none,
          [TransportCall.consumerNames streamName], s1⟩

/-! ## The remaining operations of `consumer.go` -/

/-- The method `(*JetStream).DeleteConsumer`. -/
def DeleteConsumer {σ : Type} (j : JetStream σ) (streamName consumerName : String) (s : σ) :
    Outcome σ :=
  match j.js with
  | none => ⟨some ErrConnectionClosed, [], s⟩
  | some js =>
    if streamName = "" then
      ⟨some (NewNatsError 1015 "stream name cannot be empty" none), [], s⟩
    else if consumerName = "" then
      ⟨some (NewNatsError 1024 "consumer name cannot be empty" none), [], s⟩
    else
      match js.DeleteConsumer streamName consumerName s with
      | (some err, s1) =>
        ⟨some (NewNatsError 1028 "failed to delete consumer" (some err)),
          [TransportCall.deleteConsumer streamName consumerName], s1⟩
      | (none, s1) => ⟨none, [TransportCall.deleteConsumer streamName consumerName], s1⟩

/-- The method `(*JetStream).ConsumerInfo`. -/
def JetStream.ConsumerInfo {σ : Type} (j : JetStream σ) (streamName consumerName : String)
    (s : σ) : Result σ (Option XK6Nats.ConsumerInfo) :=
  match j.js with
  | none => ⟨none, some ErrConnectionClosed, [], s⟩
  | some js =>
    if streamName = "" then
      ⟨none, some (NewNatsError 1015 "stream name cannot be empty" none), [], s⟩
    else if consumerName = "" then
      ⟨none, some (NewNatsError 1024 "consumer name cannot be empty" none), [], s⟩
    else
      match js.ConsumerInfo streamName consumerName s with
      | (Except.error err, s1) =>
        ⟨none, some (NewNatsError 1029 "failed to get consumer info" (some err)),
          [TransportCall.consumerInfo streamName consumerName], s1⟩
      | (Except.ok info, s1) =>
        ⟨some info, none, [TransportCall.consumerInfo streamName consumerName], s1⟩

/-- The method `(*JetStream).PullSubscribe`; `streamName` is not used. -/
def PullSubscribe {σ : Type} (j : JetStream σ) (_streamName subject durable : String) (s : σ) :
    Result σ (Option (Subscription σ)) :=
  match j.js with
  | none => ⟨none, some ErrConnectionClosed, [], s⟩
  | some js =>
    if subject = "" then
      ⟨none, some (NewNatsError 1008 "subject cannot be empty" none), [], s⟩
    else if durable = "" then
      ⟨none, some (NewNatsError 1024 "durable name cannot be empty" none), [], s⟩
    else
      match js.PullSubscribe subject durable s with
      | (Except.error err, s1) =>
        ⟨none, some (NewNatsError 1030 "failed to create pull subscription" (some err)),
          [TransportCall.pullSubscribe subject durable], s1⟩
      | (Except.ok sub, s1) =>
        ⟨some sub, none, [TransportCall.pullSubscribe subject durable], s1⟩

/-- The batch size `PullMessages` passes to `Fetch`. -/
def PullMessages.batchSize (batchSize : Int) : Int :=
  if batchSize ≤ 0 then 1 else batchSize

/-- The wait `PullMessages` passes to `Fetch`. -/
def PullMessages.timeout (timeout : Duration) : Duration :=
  if timeout ≤ 0 then 30 * Second else timeout

/-- The method `(*JetStream).PullMessages`; the receiver is not used, and
`sub = none` is the nil pointer. -/
def PullMessages {σ : Type} (_j : JetStream σ) (sub : Option (Subscription σ))
    (batchSize : Int) (timeout : Duration) (s : σ) : Result σ (List Msg) :=
  match sub with
  | none => ⟨[], some (NewNatsError 1031 "subscription cannot be nil" none), [], s⟩
  | some sub =>
    let batchSize := PullMessages.batchSize batchSize
    let timeout := PullMessages.timeout timeout
    match sub.Fetch batchSize timeout s with
    | ((msgs, err), s1) =>
      match err with
      | some e =>
        if e.isLibTimeout = false then
          ⟨[], some (NewNatsError 1032 "failed to fetch messages" (some e)),
            [TransportCall.fetch batchSize timeout], s1⟩
        else ⟨msgs, none, [TransportCall.fetch batchSize timeout], s1⟩
      | none => ⟨msgs, none, [TransportCall.fetch batchSize timeout], s1⟩

/-- The method `(*JetStream).PushSubscribe`, up to the registration with the
transport; `streamName` is not used, and the `nats.Durable` option is passed
exactly when `durable` is non-empty. -/
def PushSubscribe {σ : Type} (j : JetStream σ) (_streamName subject durable : String) (s : σ) :
    Result σ (Option (Subscription σ)) :=
  match j.js with
  | none => ⟨none, some ErrConnectionClosed, [], s⟩
  | some js =>
    if subject = "" then
      ⟨none, some (NewNatsError 1008 "subject cannot be empty" none), [], s⟩
    else
      let option := if durable ≠ "" then some durable else none
      match js.Subscribe subject option s with
      | (Except.error err, s1) =>
        ⟨none, some (NewNatsError 1033 "failed to create push subscription" (some err)),
          [TransportCall.subscribe subject option], s1⟩
      | (Except.ok sub, s1) => ⟨some sub, none, [TransportCall.subscribe subject option], s1⟩

/-- The method `(*JetStream).ListConsumers`. -/
def ListConsumers {σ : Type} (j : JetStream σ) (streamName : String) (s : σ) :
    Result σ (List String) :=
  match j.js with
  | none => ⟨[], some ErrConnectionClosed, [], s⟩
  | some js =>
    if streamName = "" then
      ⟨[], some (NewNatsError 1015 "stream name cannot be empty" none), [], s⟩
    else
      match js.ConsumerNames streamName s with
      | (consumerNames, s1) =>
        ⟨consumerNames.foldl (fun consumers name => consumers ++ [name]) [], none,
          [TransportCall.consumerNames streamName], s1⟩

/-! ## A transport for concrete runs

Not part of the repository: a transport that answers every lookup with a fixed
descriptor and accepts every request, counting the calls it has served. -/

/-- A transport that holds one stream descriptor and one consumer descriptor,
accepts every request and counts calls in its state. -/
def fixedTransport (stream : NatsStreamConfig) (consumer : NatsConsumerConfig) :
    JetStreamContext Nat :=
  { Publish := fun _ _ n => (none, n + 1)
    PublishAsync := fun _ _ n => (none, n + 1)
    AccountInfo := fun n => (Except.ok {}, n + 1)
    PullSubscribe := fun subject _ n =>
      (Except.ok ⟨fun _ _ m => (([{ Subject := subject }], none), m + 1)⟩, n + 1)
    Subscribe := fun subject _ n =>
      (Except.ok ⟨fun _ _ m => (([{ Subject := subject }], none), m + 1)⟩, n + 1)
    AddStream := fun cfg n => (Except.ok ⟨cfg⟩, n + 1)
    UpdateStream := fun cfg n => (Except.ok ⟨cfg⟩, n + 1)
    DeleteStream := fun _ n => (none, n + 1)
    StreamInfo := fun _ n => (Except.ok ⟨stream⟩, n + 1)
    StreamNames := fun n => ([stream.Name], n + 1)
    PurgeStream := fun _ n => (none, n + 1)
    AddConsumer := fun _ cfg n => (Except.ok ⟨cfg⟩, n + 1)
    UpdateConsumer := fun _ cfg n => (Except.ok ⟨cfg⟩, n + 1)
    DeleteConsumer := fun _ _ n => (none, n + 1)
    ConsumerInfo := fun _ _ n => (Except.ok ⟨consumer⟩, n + 1)
    ConsumerNames := fun _ n => ([consumer.Durable], n + 1) }

/-- The stream descriptor used in concrete runs. -/
def ordersStream : NatsStreamConfig :=
  { Name := "ORDERS", Subjects := ["orders.>"], MaxBytes := 4096, MaxMsgs := 1000,
    MaxAge := 3600 * Second, Replicas := 1, Other := [("Description", "order events")] }

/-- The consumer descriptor used in concrete runs. -/
def ordersConsumer : NatsConsumerConfig :=
  { Durable := "C1", AckPolicy := AckPolicy.AckExplicitPolicy, AckWait := 30 * Second,
    MaxDeliver := 3, FilterSubject := "orders.new", BackOff := [Second, 2 * Second],
    Other := [("MaxAckPending", "100")] }

/-- A `JetStream` value with a live handle on `fixedTransport`. -/
def ordersJetStream : JetStream Nat :=
  { js := some (fixedTransport ordersStream ordersConsumer) }

/-- A transport whose every request fails with the error `e`; the two name
listings, which cannot fail, are empty. -/
def failingTransport (e : GoError) : JetStreamContext Nat :=
  { Publish := fun _ _ n => (some e, n + 1)
    PublishAsync := fun _ _ n => (some e, n + 1)
    AccountInfo := fun n => (Except.error e, n + 1)
    PullSubscribe := fun _ _ n => (Except.error e, n + 1)
    Subscribe := fun _ _ n => (Except.error e, n + 1)
    AddStream := fun _ n => (Except.error e, n + 1)
    UpdateStream := fun _ n => (Except.error e, n + 1)
    DeleteStream := fun _ n => (some e, n + 1)
    StreamInfo := fun _ n => (Except.error e, n + 1)
    StreamNames := fun n => ([], n + 1)
    PurgeStream := fun _ n => (some e, n + 1)
    AddConsumer := fun _ _ n => (Except.error e, n + 1)
    UpdateConsumer := fun _ _ n => (Except.error e, n + 1)
    DeleteConsumer := fun _ _ n => (some e, n + 1)
    ConsumerInfo := fun _ _ n => (Except.error e, n + 1)
    ConsumerNames := fun _ n => ([], n + 1) }

/-- A transport on which streams exist with the descriptor `stream` and accept
updates, while every consumer request fails with the error `e`. -/
def consumerlessTransport (stream : NatsStreamConfig) (e : GoError) : JetStreamContext Nat :=
  { Publish := fun _ _ n => (none, n + 1)
    PublishAsync := fun _ _ n => (none, n + 1)
    AccountInfo := fun n => (Except.ok {}, n + 1)
    PullSubscribe := fun _ _ n => (Except.error e, n + 1)
    Subscribe := fun _ _ n => (Except.error e, n + 1)
    AddStream := fun cfg n => (Except.ok ⟨cfg⟩, n + 1)
    UpdateStream := fun cfg n => (Except.ok ⟨cfg⟩, n + 1)
    DeleteStream := fun _ n => (none, n + 1)
    StreamInfo := fun _ n => (Except.ok ⟨stream⟩, n + 1)
    StreamNames := fun n => ([stream.Name], n + 1)
    PurgeStream := fun _ n => (none, n + 1)
    AddConsumer := fun _ _ n => (Except.error e, n + 1)
    UpdateConsumer := fun _ _ n => (Except.error e, n + 1)
    DeleteConsumer := fun _ _ n => (some e, n + 1)
    ConsumerInfo := fun _ _ n => (Except.error e, n + 1)
    ConsumerNames := fun _ n => ([], n + 1) }

/-- The error a broker gives for a missing consumer, as used in concrete runs. -/
def consumerNotFound : GoError := GoError.foreign "nats: consumer not found"

/-- The error a broker gives for a missing stream, as used in concrete runs. -/
def streamNotFound : GoError := GoError.foreign "nats: stream not found"

/-- A subscription holding the messages `msgs`: a fetch hands out at most
`batch` of them, in order. -/
def readySubscription (msgs : List Msg) : Subscription Nat :=
  { Fetch := fun batch _ n => ((msgs.take batch.toNat, none), n + 1) }

/-- A subscription on which every fetch reaches its deadline with no message. -/
def timedOutSubscription : Subscription Nat :=
  { Fetch := fun _ _ n => (([], some GoError.libTimeout), n + 1) }

/-- A subscription on which every fetch fails with the error `e`. -/
def failingSubscription (e : GoError) : Subscription Nat :=
  { Fetch := fun _ _ n => (([], some e), n + 1) }

/-- Two messages used in concrete runs. -/
def orderMsgs : List Msg :=
  [{ Subject := "orders.new", Data := [1] }, { Subject := "orders.paid", Data := [2, 3] }]

/-! ## Wrapped transport failures -/

/-- The returned error is a `NatsError` with the code `code` whose `Unwrap()` is
the cause `e`. -/
def WrapsCause (err : Option NatsError) (code : Int) (e : GoError) : Prop :=
  ∃ ne : NatsError, err = some ne ∧ ne.Code = code ∧ ne.Unwrap = some e

/-- An operation returning `error` ended at once with `ErrConnectionClosed`:
no transport call, transport state `s` untouched. -/
def Outcome.closedAt {σ : Type} (o : Outcome σ) (s : σ) : Prop :=
  o.err = some ErrConnectionClosed ∧ o.calls = [] ∧ o.state = s

/-- An operation returning a value and an `error` ended at once with the nil
value `nil` and `ErrConnectionClosed`: no transport call, transport state `s`
untouched. -/
def Result.closedAt {σ α : Type} (r : Result σ α) (nil : α) (s : σ) : Prop :=
  r.val = nil ∧ r.err = some ErrConnectionClosed ∧ r.calls = [] ∧ r.state = s

/-! ## Validation (`options.go`) -/

/-- The function `ValidateStreamConfig`; `none` is the `nil` error, and an
error is given by its text. -/
def ValidateStreamConfig (config : StreamConfig) : Option String :=
  if config.Name = "" then some "stream name is required"
  else if config.Subjects.length = 0 then some "at least one subject is required"
  else if config.MaxBytes < 0 then some "maxBytes must be non-negative"
  else if config.MaxMsgs < 0 then some "maxMsgs must be non-negative"
  else if config.MaxAge < 0 then some "maxAge must be non-negative"
  else if config.Replicas < 1 ∨ config.Replicas > 5 then
    some "replicas must be between 1 and 5"
  else none

/-- The `for i, backoff := range config.BackOff` loop of
`ValidateConsumerConfig`, from index `i` on. -/
def ValidateConsumerConfig.backOffLoop : Nat → List Int → Option String
  | _, [] => none
  | i, backoff :: rest =>
    if backoff < 0 then some ("backOff[" ++ toString i ++ "] must be non-negative")
    else ValidateConsumerConfig.backOffLoop (i + 1) rest

/-- The function `ValidateConsumerConfig`; `none` is the `nil` error, and an
error is given by its text. -/
def ValidateConsumerConfig (config : ConsumerConfig) : Option String :=
  if config.Stream = "" then some "stream name is required"
  else if config.AckWait < 0 then some "ackWait must be non-negative"
  else if config.MaxDeliver < 0 then some "maxDeliver must be non-negative"
  else ValidateConsumerConfig.backOffLoop 0 config.BackOff

/-- The struct `TLSOptions` of `connection.go`. -/
structure TLSOptions where
  CertFile : String := ""
  KeyFile : String := ""
  CAFile : String := ""
  Insecure : Bool := false
deriving DecidableEq, Repr

/-- The struct `ConnectionOptions` of `connection.go`; `TLS = none` is the nil
pointer. -/
structure ConnectionOptions where
  URLs : List String := []
  MaxReconnects : Int := 0
  ReconnectWait : Int := 0
  PingInterval : Int := 0
  MaxPingsOut : Int := 0
  AllowReconnect : Bool := false
  TLS : Option TLSOptions := none
  User : String := ""
  Password : String := ""
  Token : String := ""
deriving DecidableEq, Repr

/-- The TLS block of `ValidateConnectionOptions`, for a non-nil `opts.TLS`. -/
def ValidateConnectionOptions.tls (tls : TLSOptions) : Option String :=
  if tls.CertFile ≠ "" ∧ tls.KeyFile = "" then some "certFile specified but keyFile is missing"
  else if tls.KeyFile ≠ "" ∧ tls.CertFile = "" then
    some "keyFile specified but certFile is missing"
  else none

/-- The function `ValidateConnectionOptions`; `none` is the `nil` error, and an
error is given by its text.  `opts` is passed by value, so the default URL the
function stores in its own copy when `URLs` is empty is seen by no one; the
copy is kept here as `opts`. -/
def ValidateConnectionOptions (opts : ConnectionOptions) : Option String :=
  let opts :=
    if opts.URLs.length = 0 then { opts with URLs := ["nats://localhost:4222"] } else opts
  if opts.MaxReconnects < 0 then some "maxReconnects must be non-negative"
  else if opts.ReconnectWait < 0 then some "reconnectWait must be non-negative"
  else if opts.PingInterval < 0 then some "pingInterval must be non-negative"
  else if opts.MaxPingsOut < 0 then some "maxPingsOut must be non-negative"
  else
    match opts.TLS with
    | some tls => ValidateConnectionOptions.tls tls
    | none => none

/-! # Theorems -/

/-! ## Shared lemmas -/

theorem wrapInt64_of_inRange (x : Int) (hlo : -(2 ^ 63) ≤ x) (hhi : x < 2 ^ 63) :
    wrapInt64 x = x := by
  unfold wrapInt64
  omega

theorem secondsToDuration_exact (n : Int) (hlo : -9223372036 ≤ n) (hhi : n ≤ 9223372036) :
    secondsToDuration n = n * 1000000000 := by
  unfold secondsToDuration Second
  apply wrapInt64_of_inRange <;> omega

theorem UpdateStream_run {σ : Type} (js : JetStreamContext σ) (config : StreamConfig)
    (s s1 : σ) (info : StreamInfo) (hname : config.Name ≠ "")
    (hinfo : js.StreamInfo config.Name s = (Except.ok info, s1)) :
    (UpdateStream ⟨some js⟩ config s).calls =
      [TransportCall.streamInfo config.Name,
        TransportCall.updateStream (UpdateStream.merge info.Config config)] := by
  unfold UpdateStream
  simp only [hname, if_false, hinfo]
  split <;> rfl

theorem UpdateStream_submitted {σ : Type} (js : JetStreamContext σ) (config : StreamConfig)
    (s s1 : σ) (info : StreamInfo) (hname : config.Name ≠ "")
    (hinfo : js.StreamInfo config.Name s = (Except.ok info, s1)) :
    submittedStreamUpdates (UpdateStream ⟨some js⟩ config s).calls =
      [UpdateStream.merge info.Config config] := by
  rw [UpdateStream_run js config s s1 info hname hinfo]
  rfl

theorem merge_Name (existing : NatsStreamConfig) (config : StreamConfig) :
    (UpdateStream.merge existing config).Name = existing.Name := by
  unfold UpdateStream.merge
  simp only
  split_ifs <;> rfl

theorem merge_Subjects (existing : NatsStreamConfig) (config : StreamConfig) :
    (UpdateStream.merge existing config).Subjects =
      if config.Subjects.length > 0 then config.Subjects else existing.Subjects := by
  unfold UpdateStream.merge
  simp only
  split_ifs <;> rfl

theorem merge_MaxBytes (existing : NatsStreamConfig) (config : StreamConfig) :
    (UpdateStream.merge existing config).MaxBytes =
      if config.MaxBytes > 0 then config.MaxBytes else existing.MaxBytes := by
  unfold UpdateStream.merge
  simp only
  split_ifs <;> rfl

theorem merge_MaxMsgs (existing : NatsStreamConfig) (config : StreamConfig) :
    (UpdateStream.merge existing config).MaxMsgs =
      if config.MaxMsgs > 0 then config.MaxMsgs else existing.MaxMsgs := by
  unfold UpdateStream.merge
  simp only
  split_ifs <;> rfl

theorem merge_MaxAge (existing : NatsStreamConfig) (config : StreamConfig) :
    (UpdateStream.merge existing config).MaxAge =
      if config.MaxAge > 0 then secondsToDuration config.MaxAge else existing.MaxAge := by
  unfold UpdateStream.merge
  simp only
  split_ifs <;> rfl

theorem merge_Replicas (existing : NatsStreamConfig) (config : StreamConfig) :
    (UpdateStream.merge existing config).Replicas =
      if config.Replicas > 0 then config.Replicas else existing.Replicas := by
  unfold UpdateStream.merge
  simp only
  split_ifs <;> rfl

theorem merge_rest (existing : NatsStreamConfig) (config : StreamConfig) :
    (UpdateStream.merge existing config).Retention = existing.Retention ∧
    (UpdateStream.merge existing config).Discard = existing.Discard ∧
    (UpdateStream.merge existing config).Storage = existing.Storage ∧
    (UpdateStream.merge existing config).Other = existing.Other := by
  unfold UpdateStream.merge
  simp only
  split_ifs <;> exact ⟨rfl, rfl, rfl, rfl⟩

theorem NatsStreamConfig.ext_fields (a b : NatsStreamConfig)
    (h1 : a.Name = b.Name) (h2 : a.Subjects = b.Subjects) (h3 : a.Retention = b.Retention)
    (h4 : a.MaxBytes = b.MaxBytes) (h5 : a.MaxMsgs = b.MaxMsgs) (h6 : a.MaxAge = b.MaxAge)
    (h7 : a.Replicas = b.Replicas) (h8 : a.Discard = b.Discard) (h9 : a.Storage = b.Storage)
    (h10 : a.Other = b.Other) : a = b := by
  cases a
  cases b
  simp_all

/-! ## UpdateStream: the field-by-field merge -/

/-- C1. UpdateStream never clears an omitted field: when the transport returns
the existing descriptor `info.Config` and the patch has a non-empty name, the
run makes exactly the lookup and one update, and in the descriptor it submits
each of Subjects, MaxBytes, MaxMsgs, MaxAge and Replicas whose patch value is
zero (the empty list for Subjects) has exactly the existing descriptor's value. -/
theorem UpdateStream_keeps_omitted_fields {σ : Type} (js : JetStreamContext σ)
    (config : StreamConfig) (s s1 : σ) (info : StreamInfo) (hname : config.Name ≠ "")
    (hinfo : js.StreamInfo config.Name s = (Except.ok info, s1)) :
    ∃ submitted : NatsStreamConfig,
      (UpdateStream ⟨some js⟩ config s).calls =
        [TransportCall.streamInfo config.Name, TransportCall.updateStream submitted] ∧
      (config.Subjects = [] → submitted.Subjects = info.Config.Subjects) ∧
      (config.MaxBytes = 0 → submitted.MaxBytes = info.Config.MaxBytes) ∧
      (config.MaxMsgs = 0 → submitted.MaxMsgs = info.Config.MaxMsgs) ∧
      (config.MaxAge = 0 → submitted.MaxAge = info.Config.MaxAge) ∧
      (config.Replicas = 0 → submitted.Replicas = info.Config.Replicas) := by
  refine ⟨UpdateStream.merge info.Config config,
    UpdateStream_run js config s s1 info hname hinfo, ?_, ?_, ?_, ?_, ?_⟩
  · intro h
    rw [merge_Subjects, h]
    rfl
  · intro h
    rw [merge_MaxBytes, h]
    rfl
  · intro h
    rw [merge_MaxMsgs, h]
    rfl
  · intro h
    rw [merge_MaxAge, h]
    rfl
  · intro h
    rw [merge_Replicas, h]
    rfl

/-- C1 at a concrete run: the stored stream has MaxMsgs = 1000 and the patch
names the stream and sets only MaxBytes. -/
theorem UpdateStream_keeps_omitted_fields_witness :
    ∃ submitted : NatsStreamConfig,
      (UpdateStream ordersJetStream { Name := "ORDERS", MaxBytes := 8192 } 0).calls =
        [TransportCall.streamInfo "ORDERS", TransportCall.updateStream submitted] ∧
      submitted.MaxMsgs = 1000 ∧ submitted.Subjects = ["orders.>"] ∧
      submitted.MaxAge = 3600 * Second ∧ submitted.Replicas = 1 := by
  obtain ⟨d, hcalls, hsub, _, hmsgs, hage, hrep⟩ :=
    UpdateStream_keeps_omitted_fields (fixedTransport ordersStream ordersConsumer)
      { Name := "ORDERS", MaxBytes := 8192 } 0 1 ⟨ordersStream⟩ (by decide) rfl
  exact ⟨d, hcalls, hmsgs rfl, hsub rfl, hage rfl, hrep rfl⟩

/-- C2 fails as stated: the patch below has a non-zero MaxBytes (-1) and a
non-zero MaxAge (9223372037 seconds), yet the submitted descriptor keeps the
stored MaxBytes 4096, and its MaxAge is the wrapped product
-9223372036709551616 ns rather than 9223372037 seconds. -/
theorem UpdateStream_nonzero_patch_counterexample :
    ∃ submitted : NatsStreamConfig,
      submittedStreamUpdates
        (UpdateStream ordersJetStream
          { Name := "ORDERS", MaxBytes := -1, MaxAge := 9223372037 } 0).calls = [submitted] ∧
      (-1 : Int) ≠ 0 ∧ submitted.MaxBytes ≠ -1 ∧ submitted.MaxBytes = ordersStream.MaxBytes ∧
      (9223372037 : Int) ≠ 0 ∧ submitted.MaxAge ≠ 9223372037 * 1000000000 ∧
      submitted.MaxAge = -9223372036709551616 := by
  refine ⟨_, rfl, by decide, by decide, by decide, by decide, by decide, by decide⟩

/-- C2, amended. The merge takes a numeric field from the patch exactly when the
patch value is strictly positive and keeps the existing value otherwise (also
for negative patch values): so for MaxBytes, MaxMsgs and Replicas; MaxAge, when
the patch value is positive, is the patch value times 10^9 ns in 64-bit signed
arithmetic, which is the patch value in seconds whenever it is at most
9223372036; Subjects are the patch's if that list is non-empty and the existing
ones otherwise. -/
theorem UpdateStream_merge_fields {σ : Type} (js : JetStreamContext σ)
    (config : StreamConfig) (s s1 : σ) (info : StreamInfo) (hname : config.Name ≠ "")
    (hinfo : js.StreamInfo config.Name s = (Except.ok info, s1)) :
    ∃ submitted : NatsStreamConfig,
      (UpdateStream ⟨some js⟩ config s).calls =
        [TransportCall.streamInfo config.Name, TransportCall.updateStream submitted] ∧
      submitted.MaxBytes =
        (if 0 < config.MaxBytes then config.MaxBytes else info.Config.MaxBytes) ∧
      submitted.MaxMsgs =
        (if 0 < config.MaxMsgs then config.MaxMsgs else info.Config.MaxMsgs) ∧
      submitted.Replicas =
        (if 0 < config.Replicas then config.Replicas else info.Config.Replicas) ∧
      submitted.MaxAge =
        (if 0 < config.MaxAge then wrapInt64 (config.MaxAge * 1000000000)
          else info.Config.MaxAge) ∧
      (0 < config.MaxAge → config.MaxAge ≤ 9223372036 →
        submitted.MaxAge = config.MaxAge * 1000000000) ∧
      submitted.Subjects =
        (if config.Subjects ≠ [] then config.Subjects else info.Config.Subjects) := by
  refine ⟨UpdateStream.merge info.Config config,
    UpdateStream_run js config s s1 info hname hinfo, ?_, ?_, ?_, ?_, ?_, ?_⟩
  · exact merge_MaxBytes _ _
  · exact merge_MaxMsgs _ _
  · exact merge_Replicas _ _
  · rw [merge_MaxAge]
    rfl
  · intro hpos hle
    rw [merge_MaxAge, if_pos hpos]
    exact secondsToDuration_exact _ (by omega) hle
  · rw [merge_Subjects]
    cases hs : config.Subjects <;> simp

/-- C2 amended, at a concrete run: a patch with MaxBytes = -1, MaxMsgs = 5000
and MaxAge = 60 keeps the stored MaxBytes and takes the other two. -/
theorem UpdateStream_merge_fields_witness :
    ∃ submitted : NatsStreamConfig,
      (UpdateStream ordersJetStream
        { Name := "ORDERS", MaxBytes := -1, MaxMsgs := 5000, MaxAge := 60 } 0).calls =
        [TransportCall.streamInfo "ORDERS", TransportCall.updateStream submitted] ∧
      submitted.MaxBytes = 4096 ∧ submitted.MaxMsgs = 5000 ∧
      submitted.MaxAge = 60 * 1000000000 := by
  obtain ⟨d, hcalls, hbytes, hmsgs, _, _, hage, _⟩ :=
    UpdateStream_merge_fields (fixedTransport ordersStream ordersConsumer)
      { Name := "ORDERS", MaxBytes := -1, MaxMsgs := 5000, MaxAge := 60 } 0 1
      ⟨ordersStream⟩ (by decide) rfl
  exact ⟨d, hcalls, hbytes, hmsgs, hage (by decide) (by decide)⟩

/-- C3. UpdateStream's merge is idempotent.  The first run meets the existing
descriptor `existing` and submits `merge existing config`; a second run of the
same patch against a transport that now holds that submitted descriptor submits
the very same descriptor again: merge (merge existing patch) patch =
merge existing patch. -/
theorem UpdateStream_merge_idempotent {σ τ : Type} (js : JetStreamContext σ)
    (js2 : JetStreamContext τ) (config : StreamConfig) (existing : NatsStreamConfig)
    (s s1 : σ) (t t1 : τ) (hname : config.Name ≠ "")
    (hfirst : js.StreamInfo config.Name s = (Except.ok ⟨existing⟩, s1))
    (hsecond : js2.StreamInfo config.Name t =
      (Except.ok ⟨UpdateStream.merge existing config⟩, t1)) :
    submittedStreamUpdates (UpdateStream ⟨some js⟩ config s).calls =
      [UpdateStream.merge existing config] ∧
    submittedStreamUpdates (UpdateStream ⟨some js2⟩ config t).calls =
      [UpdateStream.merge existing config] ∧
    UpdateStream.merge (UpdateStream.merge existing config) config =
      UpdateStream.merge existing config := by
  have hidem : UpdateStream.merge (UpdateStream.merge existing config) config =
      UpdateStream.merge existing config := by
    apply NatsStreamConfig.ext_fields
    · rw [merge_Name]
    · rw [merge_Subjects, merge_Subjects]
      split_ifs <;> rfl
    · rw [(merge_rest _ config).1]
    · rw [merge_MaxBytes, merge_MaxBytes]
      split_ifs <;> rfl
    · rw [merge_MaxMsgs, merge_MaxMsgs]
      split_ifs <;> rfl
    · rw [merge_MaxAge, merge_MaxAge]
      split_ifs <;> rfl
    · rw [merge_Replicas, merge_Replicas]
      split_ifs <;> rfl
    · rw [(merge_rest _ config).2.1]
    · rw [(merge_rest _ config).2.2.1]
    · rw [(merge_rest _ config).2.2.2]
  refine ⟨UpdateStream_submitted js config s s1 ⟨existing⟩ hname hfirst, ?_, hidem⟩
  rw [UpdateStream_submitted js2 config t t1 ⟨UpdateStream.merge existing config⟩ hname
    hsecond]
  exact congrArg (fun d => [d]) hidem

/-- C3 at a concrete run: the patch {MaxMsgs = 5000, Replicas = 3} is applied to
the stored stream, and then again to the descriptor the first run submitted. -/
theorem UpdateStream_merge_idempotent_witness :
    submittedStreamUpdates
      (UpdateStream ordersJetStream { Name := "ORDERS", MaxMsgs := 5000, Replicas := 3 } 0).calls =
      [{ ordersStream with MaxMsgs := 5000, Replicas := 3 }] ∧
    submittedStreamUpdates
      (UpdateStream
        ⟨some (fixedTransport { ordersStream with MaxMsgs := 5000, Replicas := 3 }
          ordersConsumer)⟩
        { Name := "ORDERS", MaxMsgs := 5000, Replicas := 3 } 7).calls =
      [{ ordersStream with MaxMsgs := 5000, Replicas := 3 }] :=
  have h := UpdateStream_merge_idempotent (fixedTransport ordersStream ordersConsumer)
    (fixedTransport { ordersStream with MaxMsgs := 5000, Replicas := 3 } ordersConsumer)
    { Name := "ORDERS", MaxMsgs := 5000, Replicas := 3 } ordersStream 0 1 7 8
    (by decide) rfl rfl
  ⟨h.1, h.2.1⟩

/-- C4 fails as stated: a patch that carries subjects replaces the stored ones.
The stored stream has Subjects ["orders.>"]; the patch below makes UpdateStream
submit Subjects ["billing.>"]. -/
theorem UpdateStream_subjects_counterexample :
    ∃ submitted : NatsStreamConfig,
      submittedStreamUpdates
        (UpdateStream ordersJetStream { Name := "ORDERS", Subjects := ["billing.>"] } 0).calls =
        [submitted] ∧
      submitted.Subjects = ["billing.>"] ∧ submitted.Subjects ≠ ordersStream.Subjects := by
  refine ⟨_, rfl, by decide, by decide⟩

/-- C4, amended. The descriptor UpdateStream submits always has the existing
descriptor's Name; it has the existing descriptor's Subjects when the patch's
Subjects list is empty, and the patch's Subjects when that list is non-empty. -/
theorem UpdateStream_identity {σ : Type} (js : JetStreamContext σ)
    (config : StreamConfig) (s s1 : σ) (info : StreamInfo) (hname : config.Name ≠ "")
    (hinfo : js.StreamInfo config.Name s = (Except.ok info, s1)) :
    ∃ submitted : NatsStreamConfig,
      (UpdateStream ⟨some js⟩ config s).calls =
        [TransportCall.streamInfo config.Name, TransportCall.updateStream submitted] ∧
      submitted.Name = info.Config.Name ∧
      (config.Subjects = [] → submitted.Subjects = info.Config.Subjects) ∧
      (config.Subjects ≠ [] → submitted.Subjects = config.Subjects) := by
  refine ⟨UpdateStream.merge info.Config config,
    UpdateStream_run js config s s1 info hname hinfo, merge_Name _ _, ?_, ?_⟩
  · intro h
    rw [merge_Subjects, h]
    rfl
  · intro h
    rw [merge_Subjects, if_pos (List.length_pos.mpr h)]

/-- C4 amended, at a concrete run: a patch without subjects leaves both the
name and the subjects of the stored stream in the submitted descriptor. -/
theorem UpdateStream_identity_witness :
    ∃ submitted : NatsStreamConfig,
      (UpdateStream ordersJetStream { Name := "ORDERS", MaxMsgs := 7 } 0).calls =
        [TransportCall.streamInfo "ORDERS", TransportCall.updateStream submitted] ∧
      submitted.Name = "ORDERS" ∧ submitted.Subjects = ["orders.>"] := by
  obtain ⟨d, hcalls, hn, hkeep, _⟩ :=
    UpdateStream_identity (fixedTransport ordersStream ordersConsumer)
      { Name := "ORDERS", MaxMsgs := 7 } 0 1 ⟨ordersStream⟩ (by decide) rfl
  exact ⟨d, hcalls, hn, hkeep rfl⟩

/-! ## Validation before the transport -/

/-- C5. With a live handle and a StreamConfig whose Name is empty, AddStream and
UpdateStream both return the validation error (code 1015, no cause), make no
transport call at all and leave the transport state untouched. -/
theorem empty_stream_name_rejected {σ : Type} (js : JetStreamContext σ)
    (config : StreamConfig) (s : σ) (hname : config.Name = "") :
    (AddStream ⟨some js⟩ config s).err =
      some (NewNatsError 1015 "stream name cannot be empty" none) ∧
    (AddStream ⟨some js⟩ config s).calls = [] ∧
    (AddStream ⟨some js⟩ config s).state = s ∧
    (UpdateStream ⟨some js⟩ config s).err =
      some (NewNatsError 1015 "stream name cannot be empty" none) ∧
    (UpdateStream ⟨some js⟩ config s).calls = [] ∧
    (UpdateStream ⟨some js⟩ config s).state = s ∧
    (NewNatsError 1015 "stream name cannot be empty" none).Code = 1015 ∧
    (NewNatsError 1015 "stream name cannot be empty" none).Unwrap = none := by
  simp [AddStream, UpdateStream, hname, NewNatsError, NatsError.Unwrap]

/-- C5 at a concrete run: a config with subjects and limits but no name. -/
theorem empty_stream_name_rejected_witness :
    (AddStream ordersJetStream { Subjects := ["orders.>"], Replicas := 1 } 0).calls = [] ∧
    (UpdateStream ordersJetStream { Subjects := ["orders.>"], Replicas := 1 } 0).calls = [] ∧
    (AddStream ordersJetStream { Subjects := ["orders.>"], Replicas := 1 } 0).state = 0 :=
  have h := empty_stream_name_rejected (fixedTransport ordersStream ordersConsumer)
    { Subjects := ["orders.>"], Replicas := 1 } 0 rfl
  ⟨h.2.1, h.2.2.2.2.1, h.2.2.1⟩

theorem AddStream_run {σ : Type} (js : JetStreamContext σ) (config : StreamConfig) (s : σ)
    (hname : config.Name ≠ "") :
    (AddStream ⟨some js⟩ config s).calls =
      [TransportCall.addStream (AddStream.streamConfig config)] ∧
    (AddStream ⟨some js⟩ config s).state = (js.AddStream (AddStream.streamConfig config) s).2 ∧
    ((AddStream ⟨some js⟩ config s).err = none ↔
      ∃ info, (js.AddStream (AddStream.streamConfig config) s).1 = Except.ok info) := by
  unfold AddStream
  simp only [hname, if_false]
  split
  · next err s1 h => simp [h]
  · next info s1 h => simp [h]

/-- C6 fails as stated: AddStream makes no replica check.  With a live handle, a
non-empty name and a transport that accepts the request, AddStream returns no
error for Replicas = 0 and for Replicas = 6, and hands that replica count to the
transport. -/
theorem AddStream_replicas_counterexample :
    (AddStream ordersJetStream
      { Name := "ORDERS", Subjects := ["orders.>"], Replicas := 0 } 0).err = none ∧
    submittedStreamAdds (AddStream ordersJetStream
      { Name := "ORDERS", Subjects := ["orders.>"], Replicas := 0 } 0).calls =
      [{ Name := "ORDERS", Subjects := ["orders.>"], Replicas := 0 }] ∧
    (AddStream ordersJetStream
      { Name := "ORDERS", Subjects := ["orders.>"], Replicas := 6 } 0).err = none ∧
    submittedStreamAdds (AddStream ordersJetStream
      { Name := "ORDERS", Subjects := ["orders.>"], Replicas := 6 } 0).calls =
      [{ Name := "ORDERS", Subjects := ["orders.>"], Replicas := 6 }] ∧
    ¬ (1 ≤ (0 : Int) ∧ (0 : Int) ≤ 5) ∧ ¬ (1 ≤ (6 : Int) ∧ (6 : Int) ≤ 5) := by
  refine ⟨rfl, by decide, rfl, by decide, by decide, by decide⟩

/-- C6, amended. With a live handle, a non-empty stream name and a transport
that accepts the request, AddStream succeeds for every value of Replicas and
submits that value unchanged.  The range 1 ≤ Replicas ≤ 5 is checked only by
ValidateStreamConfig, which AddStream does not call: ValidateStreamConfig
returns an error whenever Replicas < 1 or Replicas > 5. -/
theorem AddStream_ignores_replicas {σ : Type} (js : JetStreamContext σ)
    (config : StreamConfig) (s s1 : σ) (info : StreamInfo) (hname : config.Name ≠ "")
    (haccept : js.AddStream (AddStream.streamConfig config) s = (Except.ok info, s1)) :
    (AddStream ⟨some js⟩ config s).err = none ∧
    (∃ submitted : NatsStreamConfig,
      (AddStream ⟨some js⟩ config s).calls = [TransportCall.addStream submitted] ∧
      submitted.Replicas = config.Replicas) ∧
    (config.Replicas < 1 ∨ 5 < config.Replicas → ValidateStreamConfig config ≠ none) := by
  obtain ⟨hcalls, _, herr⟩ := AddStream_run js config s hname
  refine ⟨herr.mpr ⟨info, by rw [haccept]⟩, ⟨_, hcalls, rfl⟩, ?_⟩
  intro hrep
  unfold ValidateStreamConfig
  split_ifs <;> simp_all

/-- C6 amended, at concrete runs: Replicas = 0 and Replicas = 6 are accepted by
AddStream and rejected by ValidateStreamConfig. -/
theorem AddStream_ignores_replicas_witness :
    (AddStream ordersJetStream
      { Name := "ORDERS", Subjects := ["orders.>"], Replicas := 6 } 0).err = none ∧
    ValidateStreamConfig { Name := "ORDERS", Subjects := ["orders.>"], Replicas := 6 } ≠ none :=
  have h := AddStream_ignores_replicas (fixedTransport ordersStream ordersConsumer)
    { Name := "ORDERS", Subjects := ["orders.>"], Replicas := 6 } 0 1
    ⟨{ Name := "ORDERS", Subjects := ["orders.>"], Replicas := 6 }⟩ (by decide) rfl
  ⟨h.1, h.2.2 (Or.inr (by decide))⟩

/-! ## Policy translation -/

theorem AddConsumer_run {σ : Type} (js : JetStreamContext σ) (streamName : String)
    (config : ConsumerConfig) (s : σ) (hstream : streamName ≠ "")
    (hdurable : config.Durable ≠ "") :
    (AddConsumer ⟨some js⟩ streamName config s).calls =
      [TransportCall.addConsumer streamName (AddConsumer.consumerConfig config)] ∧
    (AddConsumer ⟨some js⟩ streamName config s).state =
      (js.AddConsumer streamName (AddConsumer.consumerConfig config) s).2 ∧
    ((AddConsumer ⟨some js⟩ streamName config s).err = none ↔
      ∃ info, (js.AddConsumer streamName (AddConsumer.consumerConfig config) s).1 =
        Except.ok info) := by
  unfold AddConsumer
  simp only [hstream, hdurable, if_false]
  split
  · next err s1 h => simp [h]
  · next info s1 h => simp [h]

theorem consumerConfig_policies (config : ConsumerConfig) :
    (AddConsumer.consumerConfig config).DeliverPolicy = deliverPolicy config.DeliverPolicy ∧
    (AddConsumer.consumerConfig config).AckPolicy = ackPolicy config.AckPolicy ∧
    (AddConsumer.consumerConfig config).ReplayPolicy = replayPolicy config.ReplayPolicy := by
  unfold AddConsumer.consumerConfig AddConsumer.literal
  simp only
  split_ifs <;> exact ⟨rfl, rfl, rfl⟩

/-- C7. Policy translation is total with the documented defaults.  With a live
handle and non-empty names, whatever the six policy strings are, AddConsumer and
AddStream each make exactly one transport call and return an error only if the
transport answers that call with one.  In the descriptor AddConsumer submits, a
DeliverPolicy, AckPolicy or ReplayPolicy string that is not a recognised name of
its family resolves to All, Explicit, Instant; in the descriptor AddStream
submits, an unrecognised Retention, Discard or Storage string resolves to
Limits, Old, File. -/
theorem policy_translation_total {σ : Type} (js : JetStreamContext σ) (streamName : String)
    (consumer : ConsumerConfig) (stream : StreamConfig) (s : σ)
    (hstream : streamName ≠ "") (hdurable : consumer.Durable ≠ "")
    (hname : stream.Name ≠ "") :
    (∃ c : NatsConsumerConfig,
      (AddConsumer ⟨some js⟩ streamName consumer s).calls =
        [TransportCall.addConsumer streamName c] ∧
      ((AddConsumer ⟨some js⟩ streamName consumer s).err = none ↔
        ∃ info, (js.AddConsumer streamName c s).1 = Except.ok info) ∧
      (consumer.DeliverPolicy ∉
          ["all", "last", "new", "by_start_sequence", "by_start_time", "last_per_subject"] →
        c.DeliverPolicy = DeliverPolicy.DeliverAllPolicy) ∧
      (consumer.AckPolicy ∉ ["none", "all", "explicit"] →
        c.AckPolicy = AckPolicy.AckExplicitPolicy) ∧
      (consumer.ReplayPolicy ∉ ["instant", "original"] →
        c.ReplayPolicy = ReplayPolicy.ReplayInstantPolicy)) ∧
    (∃ d : NatsStreamConfig,
      (AddStream ⟨some js⟩ stream s).calls = [TransportCall.addStream d] ∧
      ((AddStream ⟨some js⟩ stream s).err = none ↔
        ∃ info, (js.AddStream d s).1 = Except.ok info) ∧
      (stream.Retention ∉ ["limits", "interest", "workqueue"] →
        d.Retention = RetentionPolicy.LimitsPolicy) ∧
      (stream.Discard ∉ ["old", "new"] → d.Discard = DiscardPolicy.DiscardOld) ∧
      (stream.Storage ∉ ["file", "memory"] → d.Storage = StorageType.FileStorage)) := by
  obtain ⟨hc, _, hcerr⟩ := AddConsumer_run js streamName consumer s hstream hdurable
  obtain ⟨hd, _, hderr⟩ := AddStream_run js stream s hname
  obtain ⟨hdel, hack, hrep⟩ := consumerConfig_policies consumer
  refine ⟨⟨_, hc, hcerr, ?_, ?_, ?_⟩, ⟨_, hd, hderr, ?_, ?_, ?_⟩⟩
  · intro h
    simp only [List.mem_cons, List.mem_singleton, List.not_mem_nil, or_false, not_or] at h
    rw [hdel]
    simp [deliverPolicy, h]
  · intro h
    simp only [List.mem_cons, List.mem_singleton, List.not_mem_nil, or_false, not_or] at h
    rw [hack]
    simp [ackPolicy, h]
  · intro h
    simp only [List.mem_cons, List.mem_singleton, List.not_mem_nil, or_false, not_or] at h
    rw [hrep]
    simp [replayPolicy, h]
  · intro h
    simp only [List.mem_cons, List.mem_singleton, List.not_mem_nil, or_false, not_or] at h
    simp [AddStream.streamConfig, retentionPolicy, h]
  · intro h
    simp only [List.mem_cons, List.mem_singleton, List.not_mem_nil, or_false, not_or] at h
    simp [AddStream.streamConfig, discardPolicy, h]
  · intro h
    simp only [List.mem_cons, List.mem_singleton, List.not_mem_nil, or_false, not_or] at h
    simp [AddStream.streamConfig, storageType, h]

/-- C7 at a concrete run: the empty string and the upper-case spelling "ALL"
resolve to the defaults, and both operations succeed on an accepting
transport. -/
theorem policy_translation_total_witness :
    (∃ c : NatsConsumerConfig,
      (AddConsumer ordersJetStream "ORDERS"
        { Durable := "C1", DeliverPolicy := "ALL", AckPolicy := "", ReplayPolicy := "Instant" }
        0).calls = [TransportCall.addConsumer "ORDERS" c] ∧
      c.DeliverPolicy = DeliverPolicy.DeliverAllPolicy ∧
      c.AckPolicy = AckPolicy.AckExplicitPolicy ∧
      c.ReplayPolicy = ReplayPolicy.ReplayInstantPolicy) ∧
    (AddConsumer ordersJetStream "ORDERS"
      { Durable := "C1", DeliverPolicy := "ALL", AckPolicy := "", ReplayPolicy := "Instant" }
      0).err = none ∧
    (∃ d : NatsStreamConfig,
      (AddStream ordersJetStream
        { Name := "ORDERS", Retention := "LIMITS", Discard := "", Storage := "disk" } 0).calls =
        [TransportCall.addStream d] ∧
      d.Retention = RetentionPolicy.LimitsPolicy ∧ d.Discard = DiscardPolicy.DiscardOld ∧
      d.Storage = StorageType.FileStorage) ∧
    (AddStream ordersJetStream
      { Name := "ORDERS", Retention := "LIMITS", Discard := "", Storage := "disk" } 0).err =
      none := by
  obtain ⟨⟨c, hc, hcerr, h1, h2, h3⟩, ⟨d, hd, hderr, h4, h5, h6⟩⟩ :=
    policy_translation_total (fixedTransport ordersStream ordersConsumer) "ORDERS"
      { Durable := "C1", DeliverPolicy := "ALL", AckPolicy := "", ReplayPolicy := "Instant" }
      { Name := "ORDERS", Retention := "LIMITS", Discard := "", Storage := "disk" } 0
      (by decide) (by decide) (by decide)
  exact ⟨⟨c, hc, h1 (by decide), h2 (by decide), h3 (by decide)⟩, hcerr.mpr ⟨_, rfl⟩,
    ⟨d, hd, h4 (by decide), h5 (by decide), h6 (by decide)⟩, hderr.mpr ⟨_, rfl⟩⟩

/-- C8. Every recognised symbolic policy name resolves to the like-named enum
value, in the translation functions and hence in the descriptors AddConsumer and
AddStream build; and within each family two distinct recognised names never
resolve to the same value. -/
theorem recognised_policy_names :
    (deliverPolicy "all" = DeliverPolicy.DeliverAllPolicy ∧
      deliverPolicy "last" = DeliverPolicy.DeliverLastPolicy ∧
      deliverPolicy "new" = DeliverPolicy.DeliverNewPolicy ∧
      deliverPolicy "by_start_sequence" = DeliverPolicy.DeliverByStartSequencePolicy ∧
      deliverPolicy "by_start_time" = DeliverPolicy.DeliverByStartTimePolicy ∧
      deliverPolicy "last_per_subject" = DeliverPolicy.DeliverLastPerSubjectPolicy) ∧
    (ackPolicy "none" = AckPolicy.AckNonePolicy ∧ ackPolicy "all" = AckPolicy.AckAllPolicy ∧
      ackPolicy "explicit" = AckPolicy.AckExplicitPolicy) ∧
    (replayPolicy "instant" = ReplayPolicy.ReplayInstantPolicy ∧
      replayPolicy "original" = ReplayPolicy.ReplayOriginalPolicy) ∧
    (retentionPolicy "limits" = RetentionPolicy.LimitsPolicy ∧
      retentionPolicy "interest" = RetentionPolicy.InterestPolicy ∧
      retentionPolicy "workqueue" = RetentionPolicy.WorkQueuePolicy) ∧
    (discardPolicy "old" = DiscardPolicy.DiscardOld ∧
      discardPolicy "new" = DiscardPolicy.DiscardNew) ∧
    (storageType "file" = StorageType.FileStorage ∧
      storageType "memory" = StorageType.MemoryStorage) ∧
    (∀ config : ConsumerConfig,
      (AddConsumer.consumerConfig config).DeliverPolicy = deliverPolicy config.DeliverPolicy ∧
      (AddConsumer.consumerConfig config).AckPolicy = ackPolicy config.AckPolicy ∧
      (AddConsumer.consumerConfig config).ReplayPolicy = replayPolicy config.ReplayPolicy) ∧
    (∀ config : StreamConfig,
      (AddStream.streamConfig config).Retention = retentionPolicy config.Retention ∧
      (AddStream.streamConfig config).Discard = discardPolicy config.Discard ∧
      (AddStream.streamConfig config).Storage = storageType config.Storage) ∧
    (∀ a ∈ ["all", "last", "new", "by_start_sequence", "by_start_time", "last_per_subject"],
      ∀ b ∈ ["all", "last", "new", "by_start_sequence", "by_start_time", "last_per_subject"],
        deliverPolicy a = deliverPolicy b → a = b) ∧
    (∀ a ∈ ["none", "all", "explicit"], ∀ b ∈ ["none", "all", "explicit"],
      ackPolicy a = ackPolicy b → a = b) ∧
    (∀ a ∈ ["instant", "original"], ∀ b ∈ ["instant", "original"],
      replayPolicy a = replayPolicy b → a = b) ∧
    (∀ a ∈ ["limits", "interest", "workqueue"], ∀ b ∈ ["limits", "interest", "workqueue"],
      retentionPolicy a = retentionPolicy b → a = b) ∧
    (∀ a ∈ ["old", "new"], ∀ b ∈ ["old", "new"], discardPolicy a = discardPolicy b → a = b) ∧
    (∀ a ∈ ["file", "memory"], ∀ b ∈ ["file", "memory"],
      storageType a = storageType b → a = b) := by
  refine ⟨by decide, by decide, by decide, by decide, by decide, by decide,
    consumerConfig_policies, fun _ => ⟨rfl, rfl, rfl⟩, by decide, by decide, by decide,
    by decide, by decide, by decide⟩

/-! ## UpdateConsumer: the restricted merge -/

theorem UpdateConsumer_run {σ : Type} (js : JetStreamContext σ) (streamName : String)
    (config : ConsumerConfig) (s s1 : σ) (info : ConsumerInfo) (hstream : streamName ≠ "")
    (hdurable : config.Durable ≠ "")
    (hinfo : js.ConsumerInfo streamName config.Durable s = (Except.ok info, s1)) :
    (UpdateConsumer ⟨some js⟩ streamName config s).calls =
      [TransportCall.consumerInfo streamName config.Durable,
        TransportCall.updateConsumer streamName (UpdateConsumer.merge info.Config config)] := by
  unfold UpdateConsumer
  simp only [hstream, hdurable, if_false, hinfo]
  split <;> rfl

theorem UpdateConsumer_merge_eq (existing : NatsConsumerConfig) (config : ConsumerConfig) :
    UpdateConsumer.merge existing config =
      { existing with
        FilterSubject :=
          if config.FilterSubject ≠ "" then config.FilterSubject else existing.FilterSubject
        AckWait :=
          if 0 < config.AckWait then wrapInt64 (config.AckWait * 1000000000)
          else existing.AckWait
        MaxDeliver := if 0 < config.MaxDeliver then config.MaxDeliver else existing.MaxDeliver } := by
  unfold UpdateConsumer.merge
  simp only [gt_iff_lt]
  split_ifs <;> rfl

/-- C9 fails as stated: the patch below sets AckWait to 9223372037 seconds, and
UpdateConsumer submits the wrapped product -9223372036709551616 ns, which is
neither 9223372037 seconds nor the stored 30 seconds. -/
theorem UpdateConsumer_ackWait_counterexample :
    ∃ submitted : NatsConsumerConfig,
      (UpdateConsumer ordersJetStream "ORDERS" { Durable := "C1", AckWait := 9223372037 }
        0).calls =
        [TransportCall.consumerInfo "ORDERS" "C1",
          TransportCall.updateConsumer "ORDERS" submitted] ∧
      submitted.AckWait = -9223372036709551616 ∧
      submitted.AckWait ≠ 9223372037 * 1000000000 ∧
      submitted.AckWait ≠ ordersConsumer.AckWait := by
  refine ⟨_, rfl, by decide, by decide, by decide⟩

/-- C9, amended. For every existing consumer descriptor and every patch with
non-empty stream and durable names, UpdateConsumer makes exactly the lookup and
one update, and the descriptor it submits equals the existing one in every field
except FilterSubject, AckWait and MaxDeliver: FilterSubject is the patch value
if non-empty; AckWait, if the patch value is strictly positive, is the patch
value times 10^9 ns in 64-bit signed arithmetic, which is the patch value in
seconds whenever it is at most 9223372036; MaxDeliver is the patch value if
strictly positive; each otherwise keeps the existing value. -/
theorem UpdateConsumer_merges_three_fields {σ : Type} (js : JetStreamContext σ)
    (streamName : String) (config : ConsumerConfig) (s s1 : σ) (info : ConsumerInfo)
    (hstream : streamName ≠ "") (hdurable : config.Durable ≠ "")
    (hinfo : js.ConsumerInfo streamName config.Durable s = (Except.ok info, s1)) :
    ∃ submitted : NatsConsumerConfig,
      (UpdateConsumer ⟨some js⟩ streamName config s).calls =
        [TransportCall.consumerInfo streamName config.Durable,
          TransportCall.updateConsumer streamName submitted] ∧
      submitted =
        { info.Config with
          FilterSubject :=
            if config.FilterSubject ≠ "" then config.FilterSubject
            else info.Config.FilterSubject
          AckWait :=
            if 0 < config.AckWait then wrapInt64 (config.AckWait * 1000000000)
            else info.Config.AckWait
          MaxDeliver :=
            if 0 < config.MaxDeliver then config.MaxDeliver else info.Config.MaxDeliver } ∧
      (0 < config.AckWait → config.AckWait ≤ 9223372036 →
        submitted.AckWait = config.AckWait * 1000000000) := by
  refine ⟨UpdateConsumer.merge info.Config config,
    UpdateConsumer_run js streamName config s s1 info hstream hdurable hinfo,
    UpdateConsumer_merge_eq _ _, ?_⟩
  intro hpos hle
  rw [UpdateConsumer_merge_eq]
  simp only [if_pos hpos]
  exact wrapInt64_of_inRange _ (by omega) (by omega)

/-- C9 amended, at the run of the specification's scenario: the stored consumer
has AckWait = 30 s and the patch {durable: "C1", ackWait: 60} submits
AckWait = 60 s with every other field unchanged. -/
theorem UpdateConsumer_merges_three_fields_witness :
    (UpdateConsumer ordersJetStream "ORDERS" { Durable := "C1", AckWait := 60 } 0).calls =
      [TransportCall.consumerInfo "ORDERS" "C1",
        TransportCall.updateConsumer "ORDERS"
          { ordersConsumer with AckWait := 60 * 1000000000 }] := by
  obtain ⟨d, hcalls, hd, _⟩ :=
    UpdateConsumer_merges_three_fields (fixedTransport ordersStream ordersConsumer) "ORDERS"
      { Durable := "C1", AckWait := 60 } 0 1 ⟨ordersConsumer⟩ (by decide) (by decide) rfl
  rw [hd] at hcalls
  exact hcalls

/-! ## AddConsumer: the BackOff conversion -/

theorem appendBackOff_eq (acc : List Duration) (backOff : List Int) :
    AddConsumer.appendBackOff acc backOff = acc ++ backOff.map secondsToDuration := by
  unfold AddConsumer.appendBackOff
  induction backOff generalizing acc with
  | nil => simp
  | cons b rest ih =>
    rw [List.foldl_cons, ih]
    simp

theorem consumerConfig_BackOff (config : ConsumerConfig) :
    (AddConsumer.consumerConfig config).BackOff = config.BackOff.map secondsToDuration := by
  unfold AddConsumer.consumerConfig AddConsumer.literal
  simp only [appendBackOff_eq, List.nil_append]
  cases hb : config.BackOff with
  | nil => split_ifs <;> simp_all
  | cons b rest => split_ifs <;> simp_all

/-- C10 fails as stated: for BackOff = [1, 9223372037] the second entry of the
submitted sequence is the wrapped product -9223372036709551616 ns, not the
duration of 9223372037 whole seconds. -/
theorem AddConsumer_backOff_counterexample :
    submittedConsumerAdds
      (AddConsumer ordersJetStream "ORDERS"
        { Durable := "C1", BackOff := [1, 9223372037] } 0).calls =
      [{ AckPolicy := AckPolicy.AckExplicitPolicy, Durable := "C1",
          BackOff := [1000000000, -9223372036709551616] }] ∧
    (-9223372036709551616 : Int) ≠ 9223372037 * 1000000000 := by
  refine ⟨by decide, by decide⟩

/-- C10, amended. BackOff conversion preserves order and length: for every
ConsumerConfig that passes AddConsumer's name checks, the BackOff sequence of
the one descriptor submitted to the transport has the same length as
config.BackOff, and its i-th entry is config.BackOff[i] times 10^9 ns computed in
64-bit signed arithmetic, which is the duration of config.BackOff[i] whole
seconds whenever that entry lies between -9223372036 and 9223372036. -/
theorem AddConsumer_backOff_conversion {σ : Type} (js : JetStreamContext σ)
    (streamName : String) (config : ConsumerConfig) (s : σ) (hstream : streamName ≠ "")
    (hdurable : config.Durable ≠ "") :
    ∃ submitted : NatsConsumerConfig,
      (AddConsumer ⟨some js⟩ streamName config s).calls =
        [TransportCall.addConsumer streamName submitted] ∧
      submitted.BackOff.length = config.BackOff.length ∧
      (∀ i : Nat, submitted.BackOff[i]? =
        (config.BackOff[i]?).map (fun n => wrapInt64 (n * 1000000000))) ∧
      (∀ (i : Nat) (n : Int), config.BackOff[i]? = some n →
        -9223372036 ≤ n → n ≤ 9223372036 → submitted.BackOff[i]? = some (n * 1000000000)) := by
  refine ⟨AddConsumer.consumerConfig config,
    (AddConsumer_run js streamName config s hstream hdurable).1, ?_, ?_, ?_⟩
  · rw [consumerConfig_BackOff, List.length_map]
  · intro i
    rw [consumerConfig_BackOff, List.getElem?_map]
    rfl
  · intro i n hn hlo hhi
    rw [consumerConfig_BackOff, List.getElem?_map, hn, Option.map_some',
      secondsToDuration_exact n hlo hhi]

/-- C10 amended, at the run of the specification's scenario: BackOff seconds
[1, 2, 4] are submitted as the durations [1s, 2s, 4s]. -/
theorem AddConsumer_backOff_conversion_witness :
    ∃ submitted : NatsConsumerConfig,
      (AddConsumer ordersJetStream "ORDERS" { Durable := "C1", BackOff := [1, 2, 4] } 0).calls =
        [TransportCall.addConsumer "ORDERS" submitted] ∧
      submitted.BackOff.length = 3 ∧
      submitted.BackOff[0]? = some 1000000000 ∧
      submitted.BackOff[1]? = some 2000000000 ∧
      submitted.BackOff[2]? = some 4000000000 := by
  obtain ⟨d, hcalls, hlen, _, hexact⟩ :=
    AddConsumer_backOff_conversion (fixedTransport ordersStream ordersConsumer) "ORDERS"
      { Durable := "C1", BackOff := [1, 2, 4] } 0 (by decide) (by decide)
  exact ⟨d, hcalls, hlen, hexact 0 1 rfl (by decide) (by decide),
    hexact 1 2 rfl (by decide) (by decide), hexact 2 4 rfl (by decide) (by decide)⟩

/-! ## AddConsumer: start time, name checks, invariant -/

theorem consumerConfig_OptStartTime (config : ConsumerConfig) :
    (AddConsumer.consumerConfig config).OptStartTime =
      if 0 < config.OptStartTime then some (timeUnix config.OptStartTime 0) else none := by
  unfold AddConsumer.consumerConfig AddConsumer.literal
  simp only [gt_iff_lt]
  split_ifs <;> rfl

theorem consumerConfig_scalars (config : ConsumerConfig) :
    (AddConsumer.consumerConfig config).Durable = config.Durable ∧
    (AddConsumer.consumerConfig config).AckWait = secondsToDuration config.AckWait ∧
    (AddConsumer.consumerConfig config).MaxDeliver = config.MaxDeliver ∧
    (AddConsumer.consumerConfig config).OptStartSeq = config.OptStartSeq ∧
    (AddConsumer.consumerConfig config).FilterSubject = config.FilterSubject ∧
    (AddConsumer.consumerConfig config).Other = [] := by
  unfold AddConsumer.consumerConfig AddConsumer.literal
  simp only
  split_ifs <;> exact ⟨rfl, rfl, rfl, rfl, rfl, rfl⟩

theorem timeUnix_whole_seconds (sec : Int) :
    timeUnix sec 0 = { ext := wrapInt64 (sec + 62135596800), nsec := 0 } := by
  unfold timeUnix unixToInternal
  simp

theorem timeUnix_in_range (sec : Int) (hlo : 0 < sec) (hhi : sec ≤ 9223371974719179007) :
    (timeUnix sec 0).secondsAfterEpoch = sec ∧ (timeUnix sec 0).nsec = 0 := by
  rw [timeUnix_whole_seconds]
  unfold Time.secondsAfterEpoch unixToInternal
  simp only
  rw [wrapInt64_of_inRange _ (by omega) (by omega)]
  exact ⟨by omega, trivial⟩

/-- C11 fails as stated: for OptStartTime = 9223372036854774784 (2^63 - 1024)
the start time is set, but time.Unix adds 62135596800 to the seconds in int64
arithmetic and wraps, so the submitted instant lies 9223372036854776832 seconds
before the Unix epoch instead of 9223372036854774784 seconds after it. -/
theorem AddConsumer_optStartTime_counterexample :
    ∃ (submitted : NatsConsumerConfig) (t : Time),
      (AddConsumer ordersJetStream "ORDERS"
        { Durable := "C1", OptStartTime := 9223372036854774784 } 0).calls =
        [TransportCall.addConsumer "ORDERS" submitted] ∧
      submitted.OptStartTime = some t ∧
      t.ext = -9223371974719180032 ∧
      t.secondsAfterEpoch = -9223372036854776832 ∧
      t.secondsAfterEpoch ≠ 9223372036854774784 := by
  refine ⟨_, _, rfl, rfl, by decide, by decide, by decide⟩

/-- C11, amended. In the one descriptor AddConsumer submits, the optional start
time is set if and only if config.OptStartTime is strictly greater than zero;
when set it is time.Unix(config.OptStartTime, 0), which is the instant exactly
config.OptStartTime seconds and zero nanoseconds after the Unix epoch whenever
config.OptStartTime is at most 9223371974719179007; for OptStartTime = 0 (and
for any negative value) it is absent. -/
theorem AddConsumer_optStartTime {σ : Type} (js : JetStreamContext σ) (streamName : String)
    (config : ConsumerConfig) (s : σ) (hstream : streamName ≠ "")
    (hdurable : config.Durable ≠ "") :
    ∃ submitted : NatsConsumerConfig,
      (AddConsumer ⟨some js⟩ streamName config s).calls =
        [TransportCall.addConsumer streamName submitted] ∧
      (submitted.OptStartTime.isSome = true ↔ 0 < config.OptStartTime) ∧
      (0 < config.OptStartTime →
        submitted.OptStartTime = some (timeUnix config.OptStartTime 0) ∧
        submitted.OptStartTime =
          some { ext := wrapInt64 (config.OptStartTime + 62135596800), nsec := 0 }) ∧
      (0 < config.OptStartTime → config.OptStartTime ≤ 9223371974719179007 →
        ∃ t : Time, submitted.OptStartTime = some t ∧
          t.secondsAfterEpoch = config.OptStartTime ∧ t.nsec = 0) ∧
      (config.OptStartTime ≤ 0 → submitted.OptStartTime = none) := by
  refine ⟨AddConsumer.consumerConfig config,
    (AddConsumer_run js streamName config s hstream hdurable).1, ?_, ?_, ?_, ?_⟩
  · rw [consumerConfig_OptStartTime]
    split_ifs with h <;> simp [h]
  · intro h
    rw [consumerConfig_OptStartTime, if_pos h, timeUnix_whole_seconds]
    exact ⟨rfl, rfl⟩
  · intro hlo hhi
    rw [consumerConfig_OptStartTime, if_pos hlo]
    exact ⟨_, rfl, timeUnix_in_range _ hlo hhi⟩
  · intro h
    rw [consumerConfig_OptStartTime, if_neg (by omega)]

/-- C11 amended, at concrete runs: OptStartTime = 1700000000 is submitted as the
instant 1700000000 seconds and zero nanoseconds after the epoch, and
OptStartTime = 0 leaves the start time absent. -/
theorem AddConsumer_optStartTime_witness :
    (∃ (submitted : NatsConsumerConfig) (t : Time),
      (AddConsumer ordersJetStream "ORDERS"
        { Durable := "C1", OptStartTime := 1700000000 } 0).calls =
        [TransportCall.addConsumer "ORDERS" submitted] ∧
      submitted.OptStartTime = some t ∧ t.secondsAfterEpoch = 1700000000 ∧ t.nsec = 0) ∧
    (∃ submitted : NatsConsumerConfig,
      (AddConsumer ordersJetStream "ORDERS" { Durable := "C1", OptStartTime := 0 } 0).calls =
        [TransportCall.addConsumer "ORDERS" submitted] ∧
      submitted.OptStartTime = none) := by
  obtain ⟨d1, hcalls1, _, _, hset, _⟩ :=
    AddConsumer_optStartTime (fixedTransport ordersStream ordersConsumer) "ORDERS"
      { Durable := "C1", OptStartTime := 1700000000 } 0 (by decide) (by decide)
  obtain ⟨t, ht, hsec, hnsec⟩ := hset (by decide) (by decide)
  obtain ⟨d, hcalls, _, _, _, hnone⟩ :=
    AddConsumer_optStartTime (fixedTransport ordersStream ordersConsumer) "ORDERS"
      { Durable := "C1", OptStartTime := 0 } 0 (by decide) (by decide)
  exact ⟨⟨d1, t, hcalls1, ht, hsec, hnsec⟩, d, hcalls, hnone (by decide)⟩

/-- C12. With a live handle, AddConsumer fails with a validation error that has
no cause, makes no transport call and leaves the transport state untouched
whenever streamName is empty (code 1015, checked first) or config.Durable is
empty (code 1024 when streamName is non-empty), whatever the other fields are;
when both are non-empty it makes exactly one transport call, the add-consumer
request for streamName. -/
theorem AddConsumer_name_checks {σ : Type} (js : JetStreamContext σ) (streamName : String)
    (config : ConsumerConfig) (s : σ) :
    (streamName = "" →
      (AddConsumer ⟨some js⟩ streamName config s).err =
        some (NewNatsError 1015 "stream name cannot be empty" none)) ∧
    (streamName ≠ "" → config.Durable = "" →
      (AddConsumer ⟨some js⟩ streamName config s).err =
        some (NewNatsError 1024 "consumer durable name cannot be empty" none)) ∧
    (streamName = "" ∨ config.Durable = "" →
      (∃ e : NatsError, (AddConsumer ⟨some js⟩ streamName config s).err = some e ∧
        (e.Code = 1015 ∨ e.Code = 1024) ∧ e.Unwrap = none) ∧
      (AddConsumer ⟨some js⟩ streamName config s).calls = [] ∧
      (AddConsumer ⟨some js⟩ streamName config s).state = s) ∧
    (streamName ≠ "" → config.Durable ≠ "" →
      ∃ submitted : NatsConsumerConfig,
        (AddConsumer ⟨some js⟩ streamName config s).calls =
          [TransportCall.addConsumer streamName submitted]) := by
  refine ⟨?_, ?_, ?_, ?_⟩
  · intro h
    simp [AddConsumer, h]
  · intro h1 h2
    simp [AddConsumer, h1, h2]
  · intro h
    by_cases h1 : streamName = ""
    · simp [AddConsumer, h1, NewNatsError, NatsError.Unwrap]
    · have h2 : config.Durable = "" := h.resolve_left h1
      simp [AddConsumer, h1, h2, NewNatsError, NatsError.Unwrap]
  · intro h1 h2
    exact ⟨_, (AddConsumer_run js streamName config s h1 h2).1⟩

/-- C12 at the run of the specification's scenario: CreateConsumer("ORDERS",
{durable: ""}) fails with the validation error 1024 and reaches no transport
call, and with the durable name "C1" one add-consumer request is made. -/
theorem AddConsumer_name_checks_witness :
    (AddConsumer ordersJetStream "ORDERS" { Durable := "" } 0).err =
      some (NewNatsError 1024 "consumer durable name cannot be empty" none) ∧
    (AddConsumer ordersJetStream "ORDERS" { Durable := "" } 0).calls = [] ∧
    (∃ submitted : NatsConsumerConfig,
      (AddConsumer ordersJetStream "ORDERS" { Durable := "C1" } 0).calls =
        [TransportCall.addConsumer "ORDERS" submitted]) :=
  have h := AddConsumer_name_checks (fixedTransport ordersStream ordersConsumer) "ORDERS"
    { Durable := "" } 0
  have h2 := AddConsumer_name_checks (fixedTransport ordersStream ordersConsumer) "ORDERS"
    { Durable := "C1" } 0
  ⟨h.2.1 (by decide) rfl, (h.2.2.1 (Or.inr rfl)).2.1, h2.2.2.2 (by decide) (by decide)⟩

/-- C13 fails as stated: AddConsumer makes no sign check.  The config below
passes the name checks, and the descriptor submitted for it has a negative
ack-wait, a negative max-deliver and a negative backoff entry. -/
theorem AddConsumer_invariant_counterexample :
    ∃ submitted : NatsConsumerConfig,
      (AddConsumer ordersJetStream "ORDERS"
        { Durable := "C1", AckWait := -1, MaxDeliver := -1, BackOff := [-1] } 0).calls =
        [TransportCall.addConsumer "ORDERS" submitted] ∧
      submitted.AckWait = -1000000000 ∧ submitted.MaxDeliver = -1 ∧
      submitted.BackOff = [-1000000000] ∧
      ¬ (0 ≤ submitted.AckWait) ∧ ¬ (0 ≤ submitted.MaxDeliver) ∧
      ¬ (∀ d ∈ submitted.BackOff, 0 ≤ d) := by
  refine ⟨_, rfl, by decide, by decide, by decide, by decide, by decide, by decide⟩

/-- C13, amended. Every consumer descriptor AddConsumer submits has a non-empty
durable name.  Its ack-wait, max-deliver and backoff entries are the config's
values, converted without any sign check: max-deliver is config.MaxDeliver
itself, and ack-wait and each backoff entry are the config's seconds times 10^9
ns in 64-bit signed arithmetic.  So max-deliver is non-negative exactly when
config.MaxDeliver is, and ack-wait and the backoff entries are non-negative
whenever the config's values lie between 0 and 9223372036. -/
theorem AddConsumer_invariant {σ : Type} (js : JetStreamContext σ) (streamName : String)
    (config : ConsumerConfig) (s : σ) (hstream : streamName ≠ "")
    (hdurable : config.Durable ≠ "") :
    ∃ submitted : NatsConsumerConfig,
      (AddConsumer ⟨some js⟩ streamName config s).calls =
        [TransportCall.addConsumer streamName submitted] ∧
      submitted.Durable ≠ "" ∧
      submitted.MaxDeliver = config.MaxDeliver ∧
      submitted.AckWait = wrapInt64 (config.AckWait * 1000000000) ∧
      submitted.BackOff = config.BackOff.map (fun n => wrapInt64 (n * 1000000000)) ∧
      (0 ≤ submitted.MaxDeliver ↔ 0 ≤ config.MaxDeliver) ∧
      (0 ≤ config.AckWait → config.AckWait ≤ 9223372036 → 0 ≤ submitted.AckWait) ∧
      ((∀ n ∈ config.BackOff, 0 ≤ n ∧ n ≤ 9223372036) → ∀ d ∈ submitted.BackOff, 0 ≤ d) := by
  obtain ⟨hdur, hack, hmax, _, _, _⟩ := consumerConfig_scalars config
  refine ⟨AddConsumer.consumerConfig config,
    (AddConsumer_run js streamName config s hstream hdurable).1, ?_, hmax, hack,
    consumerConfig_BackOff config, ?_, ?_, ?_⟩
  · rw [hdur]
    exact hdurable
  · rw [hmax]
  · intro hlo hhi
    rw [hack, secondsToDuration_exact _ (by omega) hhi]
    exact Int.mul_nonneg hlo (by decide)
  · intro hall d hd
    rw [consumerConfig_BackOff, List.mem_map] at hd
    obtain ⟨n, hn, rfl⟩ := hd
    obtain ⟨hlo, hhi⟩ := hall n hn
    rw [secondsToDuration_exact _ (by omega) hhi]
    exact Int.mul_nonneg hlo (by decide)

/-- C13 amended, at a concrete run: a config with non-negative values in range
is submitted with a non-empty durable name and non-negative ack-wait,
max-deliver and backoff entries. -/
theorem AddConsumer_invariant_witness :
    ∃ submitted : NatsConsumerConfig,
      (AddConsumer ordersJetStream "ORDERS"
        { Durable := "C1", AckWait := 30, MaxDeliver := 3, BackOff := [1, 2, 4] } 0).calls =
        [TransportCall.addConsumer "ORDERS" submitted] ∧
      submitted.Durable ≠ "" ∧ 0 ≤ submitted.MaxDeliver ∧ 0 ≤ submitted.AckWait ∧
      ∀ d ∈ submitted.BackOff, 0 ≤ d := by
  obtain ⟨d, hcalls, hdur, _, _, _, hmax, hack, hback⟩ :=
    AddConsumer_invariant (fixedTransport ordersStream ordersConsumer) "ORDERS"
      { Durable := "C1", AckWait := 30, MaxDeliver := 3, BackOff := [1, 2, 4] } 0
      (by decide) (by decide)
  exact ⟨d, hcalls, hdur, hmax.mpr (by decide), hack (by decide) (by decide),
    hback (by decide)⟩

/-! ## Update against a missing resource -/

theorem UpdateStream_lookup_failure {σ : Type} (js : JetStreamContext σ)
    (config : StreamConfig) (s s1 : σ) (e : GoError) (hname : config.Name ≠ "")
    (hlookup : js.StreamInfo config.Name s = (Except.error e, s1)) :
    UpdateStream ⟨some js⟩ config s =
      ⟨some (NewNatsError 1017 "stream not found" (some e)),
        [TransportCall.streamInfo config.Name], s1⟩ := by
  unfold UpdateStream
  simp only [hname, if_false, hlookup]

theorem UpdateConsumer_lookup_failure {σ : Type} (js : JetStreamContext σ)
    (streamName : String) (config : ConsumerConfig) (s s1 : σ) (e : GoError)
    (hstream : streamName ≠ "") (hdurable : config.Durable ≠ "")
    (hlookup : js.ConsumerInfo streamName config.Durable s = (Except.error e, s1)) :
    UpdateConsumer ⟨some js⟩ streamName config s =
      ⟨some (NewNatsError 1026 "consumer not found" (some e)),
        [TransportCall.consumerInfo streamName config.Durable], s1⟩ := by
  unfold UpdateConsumer
  simp only [hstream, hdurable, if_false, hlookup]

/-- C14. Update is atomic on a missing resource, for each of the two updates on
its own.  Whenever the transport's lookup of the existing stream descriptor
fails with cause e, UpdateStream returns the not-found error with code 1017
wrapping e; whenever the transport's lookup of the existing consumer descriptor
fails with cause e, UpdateConsumer returns the not-found error with code 1026
wrapping e.  In either case the lookup is the only transport call: no update
request is submitted, and the transport is left in the state the lookup left it
in. -/
theorem update_missing_resource {σ : Type} (js : JetStreamContext σ) (e : GoError) :
    (∀ (stream : StreamConfig) (s s1 : σ),
      stream.Name ≠ "" →
      js.StreamInfo stream.Name s = (Except.error e, s1) →
      (UpdateStream ⟨some js⟩ stream s).err =
        some (NewNatsError 1017 "stream not found" (some e)) ∧
      WrapsCause (UpdateStream ⟨some js⟩ stream s).err 1017 e ∧
      (UpdateStream ⟨some js⟩ stream s).calls = [TransportCall.streamInfo stream.Name] ∧
      submittedStreamUpdates (UpdateStream ⟨some js⟩ stream s).calls = [] ∧
      (UpdateStream ⟨some js⟩ stream s).state = s1) ∧
    (∀ (streamName : String) (consumer : ConsumerConfig) (s s1 : σ),
      streamName ≠ "" → consumer.Durable ≠ "" →
      js.ConsumerInfo streamName consumer.Durable s = (Except.error e, s1) →
      (UpdateConsumer ⟨some js⟩ streamName consumer s).err =
        some (NewNatsError 1026 "consumer not found" (some e)) ∧
      WrapsCause (UpdateConsumer ⟨some js⟩ streamName consumer s).err 1026 e ∧
      (UpdateConsumer ⟨some js⟩ streamName consumer s).calls =
        [TransportCall.consumerInfo streamName consumer.Durable] ∧
      submittedConsumerUpdates (UpdateConsumer ⟨some js⟩ streamName consumer s).calls = [] ∧
      (UpdateConsumer ⟨some js⟩ streamName consumer s).state = s1) := by
  constructor
  · intro stream s s1 hname hlookup
    rw [UpdateStream_lookup_failure js stream s s1 e hname hlookup]
    exact ⟨rfl, ⟨_, rfl, rfl, rfl⟩, rfl, rfl, rfl⟩
  · intro streamName consumer s s1 hstream hdurable hlookup
    rw [UpdateConsumer_lookup_failure js streamName consumer s s1 e hstream hdurable hlookup]
    exact ⟨rfl, ⟨_, rfl, rfl, rfl⟩, rfl, rfl, rfl⟩

/-- C14 at concrete runs.  On a transport that answers every lookup with
"nats: stream not found", UpdateStream returns the wrapped cause after the lookup
alone.  On a transport where the stream exists and only the consumer is missing,
UpdateConsumer returns the wrapped cause after the lookup alone, while
UpdateStream on that same transport succeeds. -/
theorem update_missing_resource_witness :
    ((UpdateStream ⟨some (failingTransport streamNotFound)⟩
        { Name := "ORDERS", MaxMsgs := 10 } 0).calls = [TransportCall.streamInfo "ORDERS"] ∧
      WrapsCause (UpdateStream ⟨some (failingTransport streamNotFound)⟩
        { Name := "ORDERS", MaxMsgs := 10 } 0).err 1017 streamNotFound) ∧
    ((UpdateConsumer ⟨some (consumerlessTransport ordersStream consumerNotFound)⟩ "ORDERS"
        { Durable := "C1", AckWait := 60 } 0).calls =
        [TransportCall.consumerInfo "ORDERS" "C1"] ∧
      WrapsCause (UpdateConsumer ⟨some (consumerlessTransport ordersStream consumerNotFound)⟩
        "ORDERS" { Durable := "C1", AckWait := 60 } 0).err 1026 consumerNotFound ∧
      (UpdateStream ⟨some (consumerlessTransport ordersStream consumerNotFound)⟩
        { Name := "ORDERS", MaxMsgs := 10 } 0).err = none) :=
  have h1 := (update_missing_resource (failingTransport streamNotFound) streamNotFound).1
    { Name := "ORDERS", MaxMsgs := 10 } 0 1 (by decide) rfl
  have h2 :=
    (update_missing_resource (consumerlessTransport ordersStream consumerNotFound)
      consumerNotFound).2 "ORDERS" { Durable := "C1", AckWait := 60 } 0 1
      (by decide) (by decide) rfl
  ⟨⟨h1.2.2.1, h1.2.1⟩, h2.2.2.1, h2.2.1, rfl⟩

/-! ## Pull subscriptions and fetch -/

theorem isLibTimeout_iff (e : GoError) : e.isLibTimeout = true ↔ e = GoError.libTimeout := by
  cases e <;> simp [GoError.isLibTimeout]

theorem PullMessages_ok {σ : Type} (j : JetStream σ) (sub : Subscription σ)
    (batchSize : Int) (timeout : Duration) (s s1 : σ) (msgs : List Msg)
    (hfetch : sub.Fetch (PullMessages.batchSize batchSize) (PullMessages.timeout timeout) s =
      ((msgs, none), s1)) :
    PullMessages j (some sub) batchSize timeout s =
      ⟨msgs, none,
        [TransportCall.fetch (PullMessages.batchSize batchSize) (PullMessages.timeout timeout)],
        s1⟩ := by
  unfold PullMessages
  simp only [hfetch]

theorem PullMessages_timeout {σ : Type} (j : JetStream σ) (sub : Subscription σ)
    (batchSize : Int) (timeout : Duration) (s s1 : σ) (msgs : List Msg)
    (hfetch : sub.Fetch (PullMessages.batchSize batchSize) (PullMessages.timeout timeout) s =
      ((msgs, some GoError.libTimeout), s1)) :
    PullMessages j (some sub) batchSize timeout s =
      ⟨msgs, none,
        [TransportCall.fetch (PullMessages.batchSize batchSize) (PullMessages.timeout timeout)],
        s1⟩ := by
  unfold PullMessages
  simp [hfetch, GoError.isLibTimeout]

theorem PullMessages_failure {σ : Type} (j : JetStream σ) (sub : Subscription σ)
    (batchSize : Int) (timeout : Duration) (s s1 : σ) (msgs : List Msg) (e : GoError)
    (hfetch : sub.Fetch (PullMessages.batchSize batchSize) (PullMessages.timeout timeout) s =
      ((msgs, some e), s1))
    (he : e.isLibTimeout = false) :
    PullMessages j (some sub) batchSize timeout s =
      ⟨[], some (NewNatsError 1032 "failed to fetch messages" (some e)),
        [TransportCall.fetch (PullMessages.batchSize batchSize) (PullMessages.timeout timeout)],
        s1⟩ := by
  unfold PullMessages
  simp [hfetch, he]

theorem PullMessages_calls {σ : Type} (j : JetStream σ) (sub : Subscription σ)
    (batchSize : Int) (timeout : Duration) (s : σ) :
    (PullMessages j (some sub) batchSize timeout s).calls =
      [TransportCall.fetch (PullMessages.batchSize batchSize) (PullMessages.timeout timeout)] ∧
    (PullMessages j (some sub) batchSize timeout s).state =
      (sub.Fetch (PullMessages.batchSize batchSize) (PullMessages.timeout timeout) s).2 := by
  rcases hf : sub.Fetch (PullMessages.batchSize batchSize) (PullMessages.timeout timeout) s
    with ⟨⟨msgs, err⟩, s1⟩
  cases err with
  | none => rw [PullMessages_ok j sub batchSize timeout s s1 msgs hf]; exact ⟨rfl, rfl⟩
  | some e =>
    cases he : e.isLibTimeout with
    | false =>
      rw [PullMessages_failure j sub batchSize timeout s s1 msgs e hf he]
      exact ⟨rfl, rfl⟩
    | true =>
      rw [(isLibTimeout_iff e).mp he] at hf
      rw [PullMessages_timeout j sub batchSize timeout s s1 msgs hf]
      exact ⟨rfl, rfl⟩

/-- C15. Fetch defaults.  For every non-nil subscription, PullMessages(sub, 0, 0)
is the same run as PullMessages(sub, 1, 30s): the same transport fetch, the same
messages, error and final state.  More generally the one fetch PullMessages
issues has batch size 1 when batchSize ≤ 0 and batchSize itself when it is
positive, and wait 30 s when timeout ≤ 0 and timeout itself when it is
positive. -/
theorem PullMessages_defaults {σ : Type} (j : JetStream σ) (sub : Subscription σ) (s : σ) :
    PullMessages j (some sub) 0 0 s = PullMessages j (some sub) 1 (30 * Second) s ∧
    (PullMessages j (some sub) 0 0 s).calls = [TransportCall.fetch 1 30000000000] ∧
    (∀ (batchSize : Int) (timeout : Duration),
      (PullMessages j (some sub) batchSize timeout s).calls =
        [TransportCall.fetch (if batchSize ≤ 0 then 1 else batchSize)
          (if timeout ≤ 0 then 30000000000 else timeout)]) ∧
    (∀ (batchSize : Int) (timeout : Duration), batchSize ≤ 0 → timeout ≤ 0 →
      PullMessages j (some sub) batchSize timeout s =
        PullMessages j (some sub) 1 (30 * Second) s) ∧
    (∀ (batchSize : Int) (timeout : Duration), 0 < batchSize → 0 < timeout →
      (PullMessages j (some sub) batchSize timeout s).calls =
        [TransportCall.fetch batchSize timeout]) := by
  have hgen : ∀ (batchSize : Int) (timeout : Duration), batchSize ≤ 0 → timeout ≤ 0 →
      PullMessages j (some sub) batchSize timeout s =
        PullMessages j (some sub) 1 (30 * Second) s := by
    intro batchSize timeout hb ht
    have h1 : PullMessages.batchSize batchSize = PullMessages.batchSize 1 := by
      simp [PullMessages.batchSize, hb]
    have h2 : PullMessages.timeout timeout = PullMessages.timeout (30 * Second) := by
      simp [PullMessages.timeout, ht, Second]
    unfold PullMessages
    simp only [h1, h2]
  refine ⟨hgen 0 0 (le_refl _) (le_refl _), ?_, ?_, hgen, ?_⟩
  · rw [(PullMessages_calls j sub 0 0 s).1]
    rfl
  · intro batchSize timeout
    rw [(PullMessages_calls j sub batchSize timeout s).1]
    rfl
  · intro batchSize timeout hb ht
    rw [(PullMessages_calls j sub batchSize timeout s).1]
    simp [PullMessages.batchSize, PullMessages.timeout, not_le.mpr hb, not_le.mpr ht]

/-- C16. A PullMessages call whose transport fetch reaches its deadline with
zero messages collected, so that the transport returns no message and its
timeout error, returns an empty message sequence and no error. -/
theorem PullMessages_deadline_is_success {σ : Type} (j : JetStream σ) (sub : Subscription σ)
    (batchSize : Int) (timeout : Duration) (s s1 : σ)
    (hfetch : sub.Fetch (PullMessages.batchSize batchSize) (PullMessages.timeout timeout) s =
      (([], some GoError.libTimeout), s1)) :
    (PullMessages j (some sub) batchSize timeout s).val = [] ∧
    (PullMessages j (some sub) batchSize timeout s).err = none := by
  rw [PullMessages_timeout j sub batchSize timeout s s1 [] hfetch]
  exact ⟨rfl, rfl⟩

/-- C16 at a concrete run: a fetch of 10 messages with a 5 s wait on a
subscription whose fetch times out. -/
theorem PullMessages_deadline_is_success_witness :
    (PullMessages ordersJetStream (some timedOutSubscription) 10 (5 * Second) 0).val = [] ∧
    (PullMessages ordersJetStream (some timedOutSubscription) 10 (5 * Second) 0).err = none :=
  PullMessages_deadline_is_success ordersJetStream timedOutSubscription 10 (5 * Second) 0 1 rfl

/-- C17. For a non-nil subscription whose fetch returns the messages `msgs` and
the error `err`, PullMessages returns an error if and only if `err` is an error
other than the transport's timeout error.  In that case the returned error is
the fetch error with code 1032 wrapping that cause, and no messages are
returned; in every other case (no error, or the timeout error) no error is
returned and the messages are exactly `msgs`, unchanged and in order. -/
theorem PullMessages_error_iff {σ : Type} (j : JetStream σ) (sub : Subscription σ)
    (batchSize : Int) (timeout : Duration) (s s1 : σ) (msgs : List Msg)
    (err : Option GoError)
    (hfetch : sub.Fetch (PullMessages.batchSize batchSize) (PullMessages.timeout timeout) s =
      ((msgs, err), s1)) :
    ((PullMessages j (some sub) batchSize timeout s).err ≠ none ↔
      ∃ e, err = some e ∧ e ≠ GoError.libTimeout) ∧
    (∀ e, err = some e → e ≠ GoError.libTimeout →
      (PullMessages j (some sub) batchSize timeout s).err =
        some (NewNatsError 1032 "failed to fetch messages" (some e)) ∧
      WrapsCause (PullMessages j (some sub) batchSize timeout s).err 1032 e ∧
      (PullMessages j (some sub) batchSize timeout s).val = []) ∧
    (err = none ∨ err = some GoError.libTimeout →
      (PullMessages j (some sub) batchSize timeout s).err = none ∧
      (PullMessages j (some sub) batchSize timeout s).val = msgs) := by
  cases err with
  | none =>
    rw [PullMessages_ok j sub batchSize timeout s s1 msgs hfetch]
    simp
  | some e =>
    cases he : e.isLibTimeout with
    | true =>
      have hlib : e = GoError.libTimeout := (isLibTimeout_iff e).mp he
      subst hlib
      rw [PullMessages_timeout j sub batchSize timeout s s1 msgs hfetch]
      simp
    | false =>
      have hne : e ≠ GoError.libTimeout := by
        intro h
        rw [h] at he
        simp [GoError.isLibTimeout] at he
      rw [PullMessages_failure j sub batchSize timeout s s1 msgs e hfetch he]
      refine ⟨⟨fun _ => ⟨e, rfl, hne⟩, fun _ => by simp⟩, ?_, ?_⟩
      · intro e2 h2 _
        cases h2
        exact ⟨rfl, ⟨_, rfl, rfl, rfl⟩, rfl⟩
      · intro h
        rcases h with h | h
        · cases h
        · cases h
          exact absurd rfl hne

/-- C17 at concrete runs: a fetch that fails with a foreign error gives the
wrapped error and no messages; a fetch of two ready messages hands both on, in
order, with no error. -/
theorem PullMessages_error_iff_witness :
    ((PullMessages ordersJetStream (some (failingSubscription streamNotFound)) 5 Second 0).err =
        some (NewNatsError 1032 "failed to fetch messages" (some streamNotFound)) ∧
      (PullMessages ordersJetStream (some (failingSubscription streamNotFound)) 5 Second 0).val =
        []) ∧
    ((PullMessages ordersJetStream (some (readySubscription orderMsgs)) 5 Second 0).err = none ∧
      (PullMessages ordersJetStream (some (readySubscription orderMsgs)) 5 Second 0).val =
        orderMsgs) :=
  have h1 := PullMessages_error_iff ordersJetStream (failingSubscription streamNotFound) 5
    Second 0 1 [] (some streamNotFound) rfl
  have h2 := PullMessages_error_iff ordersJetStream (readySubscription orderMsgs) 5
    Second 0 1 orderMsgs none rfl
  ⟨⟨(h1.2.1 streamNotFound rfl (by simp [streamNotFound])).1,
      (h1.2.1 streamNotFound rfl (by simp [streamNotFound])).2.2⟩,
    h2.2.2 (Or.inl rfl)⟩

/-- C18. PullSubscribe returns ErrConnectionClosed and makes no transport call
when there is no live handle.  With a live handle it fails with a validation
error without a cause, and makes no transport call, when subject is empty (code
1008, checked first) or durable is empty (code 1024).  Otherwise it makes
exactly one transport call, the pull-subscribe request for exactly the given
subject and durable (the stream name is not passed on), and returns the
subscription the transport created, or error 1030 wrapping the transport's
error. -/
theorem PullSubscribe_contract {σ : Type} (js : JetStreamContext σ)
    (streamName subject durable : String) (s : σ) :
    ((PullSubscribe ⟨none⟩ streamName subject durable s).err = some ErrConnectionClosed ∧
      (PullSubscribe ⟨none⟩ streamName subject durable s).calls = [] ∧
      (PullSubscribe ⟨none⟩ streamName subject durable s).val = none) ∧
    (subject = "" →
      (PullSubscribe ⟨some js⟩ streamName subject durable s).err =
        some (NewNatsError 1008 "subject cannot be empty" none) ∧
      (PullSubscribe ⟨some js⟩ streamName subject durable s).calls = [] ∧
      (PullSubscribe ⟨some js⟩ streamName subject durable s).val = none) ∧
    (subject ≠ "" → durable = "" →
      (PullSubscribe ⟨some js⟩ streamName subject durable s).err =
        some (NewNatsError 1024 "durable name cannot be empty" none) ∧
      (PullSubscribe ⟨some js⟩ streamName subject durable s).calls = [] ∧
      (PullSubscribe ⟨some js⟩ streamName subject durable s).val = none) ∧
    (subject ≠ "" → durable ≠ "" →
      (PullSubscribe ⟨some js⟩ streamName subject durable s).calls =
        [TransportCall.pullSubscribe subject durable] ∧
      (∀ sub s1, js.PullSubscribe subject durable s = (Except.ok sub, s1) →
        (PullSubscribe ⟨some js⟩ streamName subject durable s).val = some sub ∧
        (PullSubscribe ⟨some js⟩ streamName subject durable s).err = none) ∧
      (∀ e s1, js.PullSubscribe subject durable s = (Except.error e, s1) →
        (PullSubscribe ⟨some js⟩ streamName subject durable s).val = none ∧
        (PullSubscribe ⟨some js⟩ streamName subject durable s).err =
          some (NewNatsError 1030 "failed to create pull subscription" (some e)))) := by
  refine ⟨⟨rfl, rfl, rfl⟩, ?_, ?_, ?_⟩
  · intro h
    simp [PullSubscribe, h]
  · intro h1 h2
    simp [PullSubscribe, h1, h2]
  · intro h1 h2
    unfold PullSubscribe
    simp only [h1, h2, if_false]
    rcases hreply : js.PullSubscribe subject durable s with ⟨reply, s1⟩
    cases reply with
    | error e => simp
    | ok sub => simp

/-! ## Operations without a live handle -/

/-- C19. Absence of a live transport handle yields ConnectionClosed
immediately.  For AddStream, UpdateStream, DeleteStream, StreamInfo,
GetStreamInfo, ListStreams, PurgeStream, AddConsumer, UpdateConsumer,
DeleteConsumer, ConsumerInfo, GetConsumerInfo, ListConsumers, PullSubscribe and
PushSubscribe, when the handle is absent the returned error is
ErrConnectionClosed (code 1002, no cause) for every argument, also for empty
names and subjects that would otherwise fail validation; a nil value is
returned, no transport call is made and the transport state is untouched. -/
theorem no_handle_is_connection_closed {σ : Type} (s : σ) (stream : StreamConfig)
    (consumer : ConsumerConfig) (streamName consumerName subject durable : String) :
    ErrConnectionClosed.Code = 1002 ∧ ErrConnectionClosed.Unwrap = none ∧
    (AddStream ⟨none⟩ stream s).closedAt s ∧
    (UpdateStream ⟨none⟩ stream s).closedAt s ∧
    (DeleteStream ⟨none⟩ streamName s).closedAt s ∧
    (JetStream.StreamInfo ⟨none⟩ streamName s).closedAt none s ∧
    (GetStreamInfo ⟨none⟩ streamName s).closedAt none s ∧
    (ListStreams ⟨none⟩ s).closedAt [] s ∧
    (PurgeStream ⟨none⟩ streamName s).closedAt s ∧
    (AddConsumer ⟨none⟩ streamName consumer s).closedAt s ∧
    (UpdateConsumer ⟨none⟩ streamName consumer s).closedAt s ∧
    (DeleteConsumer ⟨none⟩ streamName consumerName s).closedAt s ∧
    (JetStream.ConsumerInfo ⟨none⟩ streamName consumerName s).closedAt none s ∧
    (GetConsumerInfo ⟨none⟩ streamName consumerName s).closedAt none s ∧
    (ListConsumers ⟨none⟩ streamName s).closedAt [] s ∧
    (PullSubscribe ⟨none⟩ streamName subject durable s).closedAt none s ∧
    (PushSubscribe ⟨none⟩ streamName subject durable s).closedAt none s ∧
    (AddStream (⟨none⟩ : JetStream σ) {} s).closedAt s ∧
    (AddConsumer (⟨none⟩ : JetStream σ) "" {} s).closedAt s ∧
    (PullSubscribe (⟨none⟩ : JetStream σ) "" "" "" s).closedAt none s := by
  refine ⟨rfl, rfl, ?_, ?_, ?_, ?_, ?_, ?_, ?_, ?_, ?_, ?_, ?_, ?_, ?_, ?_, ?_, ?_, ?_, ?_⟩
  · exact ⟨rfl, rfl, rfl⟩
  · exact ⟨rfl, rfl, rfl⟩
  · exact ⟨rfl, rfl, rfl⟩
  · exact ⟨rfl, rfl, rfl, rfl⟩
  · exact ⟨rfl, rfl, rfl, rfl⟩
  · exact ⟨rfl, rfl, rfl, rfl⟩
  · exact ⟨rfl, rfl, rfl⟩
  · exact ⟨rfl, rfl, rfl⟩
  · exact ⟨rfl, rfl, rfl⟩
  · exact ⟨rfl, rfl, rfl⟩
  · exact ⟨rfl, rfl, rfl, rfl⟩
  · exact ⟨rfl, rfl, rfl, rfl⟩
  · exact ⟨rfl, rfl, rfl, rfl⟩
  · exact ⟨rfl, rfl, rfl, rfl⟩
  · exact ⟨rfl, rfl, rfl, rfl⟩
  · exact ⟨rfl, rfl, rfl⟩
  · exact ⟨rfl, rfl, rfl⟩
  · exact ⟨rfl, rfl, rfl, rfl⟩

/-! ## Transport failures -/

/-- C20 fails as stated: a fetch that fails with the transport's timeout error
is not wrapped.  PullMessages issues the fetch, the fetch returns the timeout
error, and PullMessages returns no error at all, hence no NatsError of any code
whose Unwrap() is that cause. -/
theorem PullMessages_timeout_not_wrapped_counterexample :
    (timedOutSubscription.Fetch (PullMessages.batchSize 1) (PullMessages.timeout Second) 0).1.2 =
      some GoError.libTimeout ∧
    (PullMessages ordersJetStream (some timedOutSubscription) 1 Second 0).calls =
      [TransportCall.fetch 1 Second] ∧
    (PullMessages ordersJetStream (some timedOutSubscription) 1 Second 0).err = none ∧
    ∀ code : Int,
      ¬ WrapsCause (PullMessages ordersJetStream (some timedOutSubscription) 1 Second 0).err
        code GoError.libTimeout := by
  refine ⟨rfl, by decide, rfl, ?_⟩
  intro code h
  obtain ⟨ne, hne, _⟩ := h
  cases hne

/-- C20, amended. Every transport failure except a fetch timeout is wrapped with
the original cause preserved.  For every operation of JetStream and each of its
transport calls, if that call fails with error e, the operation returns a
NatsError whose Unwrap() is e and whose code is fixed for that operation and
failure site (AddStream 1016; UpdateStream 1017 at the lookup, 1018 at the
update; DeleteStream 1019; StreamInfo, GetStreamInfo and DeleteMessage 1020;
PurgeStream 1035; Publish 1021; PublishAsync 1022; GetAccountInfo 1034;
AddConsumer 1025; UpdateConsumer 1026 at the lookup, 1027 at the update;
DeleteConsumer 1028; ConsumerInfo and GetConsumerInfo 1029; PullSubscribe 1030;
PushSubscribe 1033; PullMessages 1032), and the failing call is the last
transport call the operation makes.  For PullMessages this holds for every error
other than the transport's timeout error. -/
theorem transport_failures_wrapped {σ : Type} (js : JetStreamContext σ) (e : GoError) :
    (∀ (config : StreamConfig) (s s1 : σ),
      config.Name ≠ "" →
      js.AddStream (AddStream.streamConfig config) s = (Except.error e, s1) →
      WrapsCause (AddStream ⟨some js⟩ config s).err 1016 e ∧
      (AddStream ⟨some js⟩ config s).calls =
        [TransportCall.addStream (AddStream.streamConfig config)]) ∧
    (∀ (config : StreamConfig) (s s1 : σ),
      config.Name ≠ "" →
      js.StreamInfo config.Name s = (Except.error e, s1) →
      WrapsCause (UpdateStream ⟨some js⟩ config s).err 1017 e ∧
      (UpdateStream ⟨some js⟩ config s).calls =
        [TransportCall.streamInfo config.Name]) ∧
    (∀ (config : StreamConfig) (info : StreamInfo) (s s1 s2 : σ),
      config.Name ≠ "" →
      js.StreamInfo config.Name s = (Except.ok info, s1) →
      js.UpdateStream (UpdateStream.merge info.Config config) s1 = (Except.error e, s2) →
      WrapsCause (UpdateStream ⟨some js⟩ config s).err 1018 e ∧
      (UpdateStream ⟨some js⟩ config s).calls =
        [TransportCall.streamInfo config.Name,
          TransportCall.updateStream (UpdateStream.merge info.Config config)]) ∧
    (∀ (streamName : String) (s s1 : σ),
      streamName ≠ "" →
      js.DeleteStream streamName s = (some e, s1) →
      WrapsCause (DeleteStream ⟨some js⟩ streamName s).err 1019 e ∧
      (DeleteStream ⟨some js⟩ streamName s).calls =
        [TransportCall.deleteStream streamName]) ∧
    (∀ (streamName : String) (s s1 : σ),
      streamName ≠ "" →
      js.StreamInfo streamName s = (Except.error e, s1) →
      WrapsCause (JetStream.StreamInfo ⟨some js⟩ streamName s).err 1020 e ∧
      (JetStream.StreamInfo ⟨some js⟩ streamName s).calls =
        [TransportCall.streamInfo streamName]) ∧
    (∀ (streamName : String) (s s1 : σ),
      streamName ≠ "" →
      js.StreamInfo streamName s = (Except.error e, s1) →
      WrapsCause (GetStreamInfo ⟨some js⟩ streamName s).err 1020 e ∧
      (GetStreamInfo ⟨some js⟩ streamName s).calls =
        [TransportCall.streamInfo streamName]) ∧
    (∀ (streamName : String) (s s1 : σ),
      streamName ≠ "" →
      js.PurgeStream streamName s = (some e, s1) →
      WrapsCause (PurgeStream ⟨some js⟩ streamName s).err 1035 e ∧
      (PurgeStream ⟨some js⟩ streamName s).calls =
        [TransportCall.purgeStream streamName]) ∧
    (∀ (streamName : String) (seq : Nat) (s s1 : σ),
      streamName ≠ "" →
      js.StreamInfo streamName s = (Except.error e, s1) →
      WrapsCause (DeleteMessage ⟨some js⟩ streamName seq s).err 1020 e ∧
      (DeleteMessage ⟨some js⟩ streamName seq s).calls =
        [TransportCall.streamInfo streamName]) ∧
    (∀ (subject : String) (data : List UInt8) (s s1 : σ),
      subject ≠ "" →
      js.Publish subject data s = (some e, s1) →
      WrapsCause (Publish ⟨some js⟩ subject data s).err 1021 e ∧
      (Publish ⟨some js⟩ subject data s).calls =
        [TransportCall.publish subject data]) ∧
    (∀ (subject : String) (data : List UInt8) (s s1 : σ),
      subject ≠ "" →
      js.PublishAsync subject data s = (some e, s1) →
      WrapsCause (PublishAsync ⟨some js⟩ subject data s).err 1022 e ∧
      (PublishAsync ⟨some js⟩ subject data s).calls =
        [TransportCall.publishAsync subject data]) ∧
    (∀ (s s1 : σ),
      js.AccountInfo s = (Except.error e, s1) →
      WrapsCause (GetAccountInfo ⟨some js⟩ s).err 1034 e ∧
      (GetAccountInfo ⟨some js⟩ s).calls =
        [TransportCall.accountInfo]) ∧
    (∀ (streamName : String) (config : ConsumerConfig) (s s1 : σ),
      streamName ≠ "" →
      config.Durable ≠ "" →
      js.AddConsumer streamName (AddConsumer.consumerConfig config) s = (Except.error e, s1) →
      WrapsCause (AddConsumer ⟨some js⟩ streamName config s).err 1025 e ∧
      (AddConsumer ⟨some js⟩ streamName config s).calls =
        [TransportCall.addConsumer streamName (AddConsumer.consumerConfig config)]) ∧
    (∀ (streamName : String) (config : ConsumerConfig) (s s1 : σ),
      streamName ≠ "" →
      config.Durable ≠ "" →
      js.ConsumerInfo streamName config.Durable s = (Except.error e, s1) →
      WrapsCause (UpdateConsumer ⟨some js⟩ streamName config s).err 1026 e ∧
      (UpdateConsumer ⟨some js⟩ streamName config s).calls =
        [TransportCall.consumerInfo streamName config.Durable]) ∧
    (∀ (streamName : String) (config : ConsumerConfig) (info : ConsumerInfo) (s s1 s2 : σ),
      streamName ≠ "" →
      config.Durable ≠ "" →
      js.ConsumerInfo streamName config.Durable s = (Except.ok info, s1) →
      js.UpdateConsumer streamName (UpdateConsumer.merge info.Config config) s1 =
        (Except.error e, s2) →
      WrapsCause (UpdateConsumer ⟨some js⟩ streamName config s).err 1027 e ∧
      (UpdateConsumer ⟨some js⟩ streamName config s).calls =
        [TransportCall.consumerInfo streamName config.Durable,
          TransportCall.updateConsumer streamName (UpdateConsumer.merge info.Config config)]) ∧
    (∀ (streamName consumerName : String) (s s1 : σ),
      streamName ≠ "" →
      consumerName ≠ "" →
      js.DeleteConsumer streamName consumerName s = (some e, s1) →
      WrapsCause (DeleteConsumer ⟨some js⟩ streamName consumerName s).err 1028 e ∧
      (DeleteConsumer ⟨some js⟩ streamName consumerName s).calls =
        [TransportCall.deleteConsumer streamName consumerName]) ∧
    (∀ (streamName consumerName : String) (s s1 : σ),
      streamName ≠ "" →
      consumerName ≠ "" →
      js.ConsumerInfo streamName consumerName s = (Except.error e, s1) →
      WrapsCause (JetStream.ConsumerInfo ⟨some js⟩ streamName consumerName s).err 1029 e ∧
      (JetStream.ConsumerInfo ⟨some js⟩ streamName consumerName s).calls =
        [TransportCall.consumerInfo streamName consumerName]) ∧
    (∀ (streamName consumerName : String) (s s1 : σ),
      streamName ≠ "" →
      consumerName ≠ "" →
      js.ConsumerInfo streamName consumerName s = (Except.error e, s1) →
      WrapsCause (GetConsumerInfo ⟨some js⟩ streamName consumerName s).err 1029 e ∧
      (GetConsumerInfo ⟨some js⟩ streamName consumerName s).calls =
        [TransportCall.consumerInfo streamName consumerName]) ∧
    (∀ (streamName subject durable : String) (s s1 : σ),
      subject ≠ "" →
      durable ≠ "" →
      js.PullSubscribe subject durable s = (Except.error e, s1) →
      WrapsCause (PullSubscribe ⟨some js⟩ streamName subject durable s).err 1030 e ∧
      (PullSubscribe ⟨some js⟩ streamName subject durable s).calls =
        [TransportCall.pullSubscribe subject durable]) ∧
    (∀ (streamName subject durable : String) (s s1 : σ),
      subject ≠ "" →
      js.Subscribe subject (if durable ≠ "" then some durable else none) s =
        (Except.error e, s1) →
      WrapsCause (PushSubscribe ⟨some js⟩ streamName subject durable s).err 1033 e ∧
      (PushSubscribe ⟨some js⟩ streamName subject durable s).calls =
        [TransportCall.subscribe subject (if durable ≠ "" then some durable else none)]) ∧
    (∀ (j : JetStream σ) (sub : Subscription σ) (batchSize : Int) (timeout : Duration)
        (msgs : List Msg) (s s1 : σ),
      sub.Fetch (PullMessages.batchSize batchSize) (PullMessages.timeout timeout) s =
        ((msgs, some e), s1) →
      e ≠ GoError.libTimeout →
      WrapsCause (PullMessages j (some sub) batchSize timeout s).err 1032 e ∧
      (PullMessages j (some sub) batchSize timeout s).calls =
        [TransportCall.fetch (PullMessages.batchSize batchSize)
          (PullMessages.timeout timeout)]) := by
  refine ⟨?_, ?_, ?_, ?_, ?_, ?_, ?_, ?_, ?_, ?_, ?_, ?_, ?_, ?_, ?_, ?_, ?_, ?_, ?_, ?_⟩
  · intro config s s1 h1 h2
    simp [AddStream, h1, h2, WrapsCause, NewNatsError, NatsError.Unwrap]
  · intro config s s1 h1 h2
    simp [UpdateStream, h1, h2, WrapsCause, NewNatsError, NatsError.Unwrap]
  · intro config info s s1 s2 h1 h2 h3
    simp [UpdateStream, h1, h2, h3, WrapsCause, NewNatsError, NatsError.Unwrap]
  · intro streamName s s1 h1 h2
    simp [DeleteStream, h1, h2, WrapsCause, NewNatsError, NatsError.Unwrap]
  · intro streamName s s1 h1 h2
    simp [JetStream.StreamInfo, h1, h2, WrapsCause, NewNatsError, NatsError.Unwrap]
  · intro streamName s s1 h1 h2
    simp [GetStreamInfo, h1, h2, WrapsCause, NewNatsError, NatsError.Unwrap]
  · intro streamName s s1 h1 h2
    simp [PurgeStream, h1, h2, WrapsCause, NewNatsError, NatsError.Unwrap]
  · intro streamName seq s s1 h1 h2
    simp [DeleteMessage, h1, h2, WrapsCause, NewNatsError, NatsError.Unwrap]
  · intro subject data s s1 h1 h2
    simp [Publish, h1, h2, WrapsCause, NewNatsError, NatsError.Unwrap]
  · intro subject data s s1 h1 h2
    simp [PublishAsync, h1, h2, WrapsCause, NewNatsError, NatsError.Unwrap]
  · intro s s1 h1
    simp [GetAccountInfo, h1, WrapsCause, NewNatsError, NatsError.Unwrap]
  · intro streamName config s s1 h1 h2 h3
    simp [AddConsumer, h1, h2, h3, WrapsCause, NewNatsError, NatsError.Unwrap]
  · intro streamName config s s1 h1 h2 h3
    simp [UpdateConsumer, h1, h2, h3, WrapsCause, NewNatsError, NatsError.Unwrap]
  · intro streamName config info s s1 s2 h1 h2 h3 h4
    simp [UpdateConsumer, h1, h2, h3, h4, WrapsCause, NewNatsError, NatsError.Unwrap]
  · intro streamName consumerName s s1 h1 h2 h3
    simp [DeleteConsumer, h1, h2, h3, WrapsCause, NewNatsError, NatsError.Unwrap]
  · intro streamName consumerName s s1 h1 h2 h3
    simp [JetStream.ConsumerInfo, h1, h2, h3, WrapsCause, NewNatsError, NatsError.Unwrap]
  · intro streamName consumerName s s1 h1 h2 h3
    simp [GetConsumerInfo, h1, h2, h3, WrapsCause, NewNatsError, NatsError.Unwrap]
  · intro streamName subject durable s s1 h1 h2 h3
    simp [PullSubscribe, h1, h2, h3, WrapsCause, NewNatsError, NatsError.Unwrap]
  · intro streamName subject durable s s1 h1 h2
    unfold PushSubscribe
    simp only [h1, if_false, h2]
    exact ⟨⟨_, rfl, rfl, rfl⟩, trivial⟩
  · intro j sub batchSize timeout msgs s s1 h1 h2
    have he : e.isLibTimeout = false := by
      cases h : e.isLibTimeout with
      | false => rfl
      | true => exact absurd ((isLibTimeout_iff e).mp h) h2
    rw [PullMessages_failure j sub batchSize timeout s s1 msgs e h1 he]
    exact ⟨⟨_, rfl, rfl, rfl⟩, rfl⟩

/-! ## The error taxonomy (`errors.go`) -/

theorem NatsError.toError_Error (e : NatsError) : e.toError.Error = e.Error := by
  cases e with
  | mk code message err =>
    cases err <;> simp [NatsError.toError, NatsError.Error, GoError.Error]

/-- C21. NewNatsError is a faithful constructor: for every code c, message m and
possibly absent cause e, NewNatsError(c, m, e) has Code = c, Message = m and
Unwrap() = e; Unwrap() is absent exactly when no cause was given, and two
errors built from different codes, messages or causes differ. -/
theorem NewNatsError_faithful (c : Int) (m : String) (e : Option GoError) :
    (NewNatsError c m e).Code = c ∧
    (NewNatsError c m e).Message = m ∧
    (NewNatsError c m e).Unwrap = e ∧
    ((NewNatsError c m e).Unwrap = none ↔ e = none) ∧
    (∀ cause : GoError, (NewNatsError c m (some cause)).Unwrap = some cause) ∧
    (NewNatsError c m none).Unwrap = none ∧
    (∀ (c2 : Int) (m2 : String) (e2 : Option GoError),
      NewNatsError c m e = NewNatsError c2 m2 e2 → c = c2 ∧ m = m2 ∧ e = e2) := by
  refine ⟨rfl, rfl, rfl, Iff.rfl, fun _ => rfl, rfl, ?_⟩
  intro c2 m2 e2 h
  unfold NewNatsError at h
  injection h with h1 h2 h3
  exact ⟨h1, h2, h3⟩

/-- C22. NatsError.Error() renders as "nats error [<code>]: <message>" when
there is no cause and as "nats error [<code>]: <message>: <cause text>" when
there is one, for every code, message and cause.  Hence when the cause is itself
a NatsError the text of the outer error ends with the full text of the inner
one; the wrapper 1002 "wrapper error" around 999 "underlying" renders as
"nats error [1002]: wrapper error: nats error [999]: underlying". -/
theorem NatsError_Error_format (c : Int) (m : String) :
    (NewNatsError c m none).Error = "nats error [" ++ toString c ++ "]: " ++ m ∧
    (∀ cause : GoError,
      (NewNatsError c m (some cause)).Error =
        "nats error [" ++ toString c ++ "]: " ++ m ++ ": " ++ cause.Error) ∧
    (∀ inner : NatsError,
      (NewNatsError c m (some inner.toError)).Error =
        "nats error [" ++ toString c ++ "]: " ++ m ++ ": " ++ inner.Error) ∧
    (∀ inner : NatsError, ∃ front : String,
      (NewNatsError c m (some inner.toError)).Error = front ++ inner.Error) ∧
    (∀ (c2 : Int) (m2 : String) (inner : NatsError),
      (NewNatsError c m (some (NewNatsError c2 m2 (some inner.toError)).toError)).Error =
        "nats error [" ++ toString c ++ "]: " ++ m ++ ": " ++
          ("nats error [" ++ toString c2 ++ "]: " ++ m2 ++ ": " ++ inner.Error)) ∧
    (NewNatsError 1001 "test error" none).Error = "nats error [1001]: test error" ∧
    (NewNatsError 1002 "wrapper error"
        (some (NewNatsError 999 "underlying" none).toError)).Error =
      "nats error [1002]: wrapper error: nats error [999]: underlying" ∧
    (NewNatsError (-7) "odd" (some (GoError.foreign "boom"))).Error =
      "nats error [-7]: odd: boom" := by
  refine ⟨rfl, fun _ => rfl, ?_, ?_, ?_, by decide, by decide, by decide⟩
  · intro inner
    rw [← NatsError.toError_Error inner]
    rfl
  · intro inner
    refine ⟨"nats error [" ++ toString c ++ "]: " ++ m ++ ": ", ?_⟩
    rw [← NatsError.toError_Error inner]
    rfl
  · intro c2 m2 inner
    rw [← NatsError.toError_Error inner]
    rfl

/-- C23. The predefined error catalog: ErrNoVUState, ErrConnectionClosed,
ErrInvalidConfig, ErrStreamNotFound, ErrConsumerNotFound, ErrTimeout and
ErrNoMessage carry the codes 1001 to 1007, pairwise distinct, with their
messages and no cause; and for every message m and cause e,
NewConnectionError(m, e) has code 1002, message m and Unwrap() = e. -/
theorem predefined_errors :
    [ErrNoVUState.Code, ErrConnectionClosed.Code, ErrInvalidConfig.Code,
      ErrStreamNotFound.Code, ErrConsumerNotFound.Code, ErrTimeout.Code, ErrNoMessage.Code] =
      [1001, 1002, 1003, 1004, 1005, 1006, 1007] ∧
    [ErrNoVUState.Code, ErrConnectionClosed.Code, ErrInvalidConfig.Code,
      ErrStreamNotFound.Code, ErrConsumerNotFound.Code, ErrTimeout.Code,
      ErrNoMessage.Code].Nodup ∧
    [ErrNoVUState.Message, ErrConnectionClosed.Message, ErrInvalidConfig.Message,
      ErrStreamNotFound.Message, ErrConsumerNotFound.Message, ErrTimeout.Message,
      ErrNoMessage.Message] =
      ["no VU state available", "connection is closed", "invalid configuration",
        "stream not found", "consumer not found", "operation timed out",
        "no message available"] ∧
    [ErrNoVUState.Unwrap, ErrConnectionClosed.Unwrap, ErrInvalidConfig.Unwrap,
      ErrStreamNotFound.Unwrap, ErrConsumerNotFound.Unwrap, ErrTimeout.Unwrap,
      ErrNoMessage.Unwrap] = [none, none, none, none, none, none, none] ∧
    (∀ (m : String) (e : Option GoError),
      (NewConnectionError m e).Code = 1002 ∧ (NewConnectionError m e).Message = m ∧
      (NewConnectionError m e).Unwrap = e) ∧
    ErrConnectionClosed.Error = "nats error [1002]: connection is closed" := by
  refine ⟨by decide, by decide, by decide, rfl, fun _ _ => ⟨rfl, rfl, rfl⟩, by decide⟩

/-! ## The validators (`options.go`) -/

/-- C24. ValidateStreamConfig returns no error if and only if Name is non-empty,
Subjects is non-empty, MaxBytes ≥ 0, MaxMsgs ≥ 0, MaxAge ≥ 0 and
1 ≤ Replicas ≤ 5; its result is the same whatever Retention, Discard and Storage
are. -/
theorem ValidateStreamConfig_accepts_iff (config : StreamConfig) :
    (ValidateStreamConfig config = none ↔
      config.Name ≠ "" ∧ config.Subjects ≠ [] ∧ 0 ≤ config.MaxBytes ∧ 0 ≤ config.MaxMsgs ∧
        0 ≤ config.MaxAge ∧ 1 ≤ config.Replicas ∧ config.Replicas ≤ 5) ∧
    (∀ retention discard storage : String,
      ValidateStreamConfig
        { config with Retention := retention, Discard := discard, Storage := storage } =
        ValidateStreamConfig config) := by
  refine ⟨?_, fun _ _ _ => rfl⟩
  unfold ValidateStreamConfig
  constructor
  · intro h
    split_ifs at h with h1 h2 h3 h4 h5 h6
    refine ⟨h1, ?_, by omega, by omega, by omega, by omega, by omega⟩
    intro hnil
    rw [hnil] at h2
    exact h2 rfl
  · rintro ⟨h1, h2, h3, h4, h5, h6, h7⟩
    have hlen : ¬ config.Subjects.length = 0 := fun h => h2 (List.length_eq_zero.mp h)
    rw [if_neg h1, if_neg hlen, if_neg (by omega), if_neg (by omega), if_neg (by omega),
      if_neg (by omega)]

theorem backOffLoop_eq_none_iff (i : Nat) (backOff : List Int) :
    ValidateConsumerConfig.backOffLoop i backOff = none ↔ ∀ b ∈ backOff, 0 ≤ b := by
  induction backOff generalizing i with
  | nil => simp [ValidateConsumerConfig.backOffLoop]
  | cons b rest ih =>
    unfold ValidateConsumerConfig.backOffLoop
    by_cases hb : b < 0
    · simp only [if_pos hb, List.mem_cons, forall_eq_or_imp]
      constructor
      · intro h
        cases h
      · intro h
        omega
    · simp only [if_neg hb, List.mem_cons, forall_eq_or_imp, ih]
      constructor
      · intro h
        exact ⟨by omega, h⟩
      · intro h
        exact h.2

/-- C25. ValidateConsumerConfig returns no error if and only if Stream is
non-empty, AckWait ≥ 0, MaxDeliver ≥ 0 and every BackOff entry is ≥ 0.  A config
with only Stream set is accepted, and the BackOff [-1, 2, 3] is rejected, at
index 0. -/
theorem ValidateConsumerConfig_accepts_iff (config : ConsumerConfig) :
    (ValidateConsumerConfig config = none ↔
      config.Stream ≠ "" ∧ 0 ≤ config.AckWait ∧ 0 ≤ config.MaxDeliver ∧
        ∀ b ∈ config.BackOff, 0 ≤ b) ∧
    ValidateConsumerConfig { Stream := "TEST_STREAM" } = none ∧
    ValidateConsumerConfig { Stream := "TEST_STREAM", BackOff := [-1, 2, 3] } =
      some "backOff[0] must be non-negative" ∧
    ValidateConsumerConfig { Stream := "TEST_STREAM", BackOff := [1, 2, -3] } =
      some "backOff[2] must be non-negative" := by
  refine ⟨?_, by decide, by decide, by decide⟩
  unfold ValidateConsumerConfig
  constructor
  · intro h
    split_ifs at h with h1 h2 h3
    exact ⟨h1, by omega, by omega, (backOffLoop_eq_none_iff 0 _).mp h⟩
  · rintro ⟨h1, h2, h3, h4⟩
    rw [if_neg h1, if_neg (by omega), if_neg (by omega)]
    exact (backOffLoop_eq_none_iff 0 _).mpr h4

theorem ValidateConnectionOptions_tls_eq_none_iff (tls : TLSOptions) :
    ValidateConnectionOptions.tls tls = none ↔ (tls.CertFile = "" ↔ tls.KeyFile = "") := by
  unfold ValidateConnectionOptions.tls
  by_cases hc : tls.CertFile = "" <;> by_cases hk : tls.KeyFile = "" <;> simp [hc, hk]

/-- C26. ValidateConnectionOptions returns no error if and only if
MaxReconnects, ReconnectWait, PingInterval and MaxPingsOut are all ≥ 0 and, when
TLS options are present, CertFile and KeyFile are either both empty or both
non-empty.  Its result is the same whatever URLs (also the empty list), User,
Password, Token, AllowReconnect, CAFile and Insecure are. -/
theorem ValidateConnectionOptions_accepts_iff (opts : ConnectionOptions) :
    (ValidateConnectionOptions opts = none ↔
      0 ≤ opts.MaxReconnects ∧ 0 ≤ opts.ReconnectWait ∧ 0 ≤ opts.PingInterval ∧
        0 ≤ opts.MaxPingsOut ∧
        ∀ tls, opts.TLS = some tls → (tls.CertFile = "" ↔ tls.KeyFile = "")) ∧
    (∀ (urls : List String) (user password token : String) (allowReconnect : Bool),
      ValidateConnectionOptions
        { opts with URLs := urls, User := user, Password := password, Token := token,
                    AllowReconnect := allowReconnect } =
        ValidateConnectionOptions opts) ∧
    (∀ (tls : TLSOptions) (caFile : String) (insecure : Bool),
      ValidateConnectionOptions
        { opts with TLS := some { tls with CAFile := caFile, Insecure := insecure } } =
        ValidateConnectionOptions { opts with TLS := some tls }) ∧
    ValidateConnectionOptions {} = none := by
  have hshape : ∀ o : ConnectionOptions, ValidateConnectionOptions o =
      if o.MaxReconnects < 0 then some "maxReconnects must be non-negative"
      else if o.ReconnectWait < 0 then some "reconnectWait must be non-negative"
      else if o.PingInterval < 0 then some "pingInterval must be non-negative"
      else if o.MaxPingsOut < 0 then some "maxPingsOut must be non-negative"
      else match o.TLS with
        | some tls => ValidateConnectionOptions.tls tls
        | none => none := by
    intro o
    unfold ValidateConnectionOptions
    simp only
    split_ifs <;> rfl
  refine ⟨?_, ?_, ?_, by decide⟩
  · rw [hshape]
    constructor
    · intro h
      split_ifs at h with h1 h2 h3 h4
      refine ⟨by omega, by omega, by omega, by omega, ?_⟩
      intro tls htls
      rw [htls] at h
      exact (ValidateConnectionOptions_tls_eq_none_iff tls).mp h
    · rintro ⟨h1, h2, h3, h4, h5⟩
      rw [if_neg (by omega), if_neg (by omega), if_neg (by omega), if_neg (by omega)]
      cases htls : opts.TLS with
      | none => rfl
      | some tls => exact (ValidateConnectionOptions_tls_eq_none_iff tls).mpr (h5 tls htls)
  · intro urls user password token allowReconnect
    rw [hshape, hshape]
  · intro tls caFile insecure
    rw [hshape, hshape]
    rfl

/-! ## AddStream: the submitted descriptor -/

/-- C27 fails as stated: for MaxAge = 9223372037 the descriptor AddStream
submits has MaxAge -9223372036709551616 ns, not 9223372037 whole seconds. -/
theorem AddStream_maxAge_counterexample :
    ∃ submitted : NatsStreamConfig,
      (AddStream ordersJetStream { Name := "ORDERS", MaxAge := 9223372037 } 0).calls =
        [TransportCall.addStream submitted] ∧
      submitted.MaxAge = -9223372036709551616 ∧
      submitted.MaxAge ≠ 9223372037 * 1000000000 := by
  refine ⟨_, rfl, by decide, by decide⟩

/-- C27, amended. AddStream's submitted descriptor is the field-wise conversion
of the config: for every StreamConfig with a non-empty name, the one descriptor
sent to the transport has Name, Subjects, MaxBytes, MaxMsgs and Replicas equal
to the config's, Retention, Discard and Storage equal to the translated
policies, every other field at its zero value, and MaxAge equal to
config.MaxAge times 10^9 ns computed in 64-bit signed arithmetic, which is
config.MaxAge whole seconds whenever config.MaxAge lies between -9223372036 and
9223372036. -/
theorem AddStream_descriptor_fields {σ : Type} (js : JetStreamContext σ)
    (config : StreamConfig) (s : σ) (hname : config.Name ≠ "") :
    ∃ submitted : NatsStreamConfig,
      (AddStream ⟨some js⟩ config s).calls = [TransportCall.addStream submitted] ∧
      submitted.Name = config.Name ∧ submitted.Subjects = config.Subjects ∧
      submitted.MaxBytes = config.MaxBytes ∧ submitted.MaxMsgs = config.MaxMsgs ∧
      submitted.Replicas = config.Replicas ∧
      submitted.Retention = retentionPolicy config.Retention ∧
      submitted.Discard = discardPolicy config.Discard ∧
      submitted.Storage = storageType config.Storage ∧
      submitted.Other = [] ∧
      submitted.MaxAge = wrapInt64 (config.MaxAge * 1000000000) ∧
      (-9223372036 ≤ config.MaxAge → config.MaxAge ≤ 9223372036 →
        submitted.MaxAge = config.MaxAge * 1000000000) := by
  refine ⟨AddStream.streamConfig config, (AddStream_run js config s hname).1,
    rfl, rfl, rfl, rfl, rfl, rfl, rfl, rfl, rfl, rfl, ?_⟩
  intro hlo hhi
  exact secondsToDuration_exact _ hlo hhi

/-- C27 amended, at the claim's example: retention "interest", storage
"memory", discard "new" and MaxAge 3600 are submitted as Interest, Memory, New
and 3600 s. -/
theorem AddStream_descriptor_fields_witness :
    (AddStream ordersJetStream
      { Name := "ORDERS", Subjects := ["orders.>"], Retention := "interest", MaxBytes := 1024,
        MaxMsgs := 1000, MaxAge := 3600, Replicas := 1, Discard := "new",
        Storage := "memory" } 0).calls =
      [TransportCall.addStream
        { Name := "ORDERS", Subjects := ["orders.>"],
          Retention := RetentionPolicy.InterestPolicy, MaxBytes := 1024, MaxMsgs := 1000,
          MaxAge := 3600 * 1000000000, Replicas := 1, Discard := DiscardPolicy.DiscardNew,
          Storage := StorageType.MemoryStorage }] := by
  obtain ⟨d, hcalls, h1, h2, h3, h4, h5, h6, h7, h8, h9, _, h10⟩ :=
    AddStream_descriptor_fields (fixedTransport ordersStream ordersConsumer)
      { Name := "ORDERS", Subjects := ["orders.>"], Retention := "interest", MaxBytes := 1024,
        MaxMsgs := 1000, MaxAge := 3600, Replicas := 1, Discard := "new",
        Storage := "memory" } 0 (by decide)
  refine hcalls.trans (congrArg (fun x => [TransportCall.addStream x]) ?_)
  exact NatsStreamConfig.ext_fields _ _ h1 h2 (by rw [h6]; decide) h3 h4
    (h10 (by decide) (by decide)) h5 (by rw [h7]; decide) (by rw [h8]; decide) h9

/-! ## ParseDuration -/

theorem wrapInt64_range (x : Int) :
    -(2 ^ 63) ≤ wrapInt64 x ∧ wrapInt64 x < 2 ^ 63 ∧ (wrapInt64 x - x) % 2 ^ 64 = 0 := by
  unfold wrapInt64
  omega

/-- C28. ParseDuration converts whole seconds to a duration: for every integer
n, ParseDuration(n) is n × 1,000,000,000 ns computed in 64-bit signed
arithmetic, that is the one value in [-2^63, 2^63) congruent to the product
modulo 2^64; ParseDuration(0) = 0 and ParseDuration(30) = 30 s; for every n with
|n| ≤ 9,223,372,036 the result is the exact product, and ParseDuration is
strictly increasing on that range. -/
theorem ParseDuration_exact :
    (∀ n : Int, ParseDuration n = wrapInt64 (n * 1000000000)) ∧
    (∀ n : Int, -(2 ^ 63) ≤ ParseDuration n ∧ ParseDuration n < 2 ^ 63 ∧
      (ParseDuration n - n * 1000000000) % 2 ^ 64 = 0) ∧
    ParseDuration 0 = 0 ∧
    ParseDuration 30 = 30 * Second ∧
    (∀ n : Int, -9223372036 ≤ n → n ≤ 9223372036 → ParseDuration n = n * 1000000000) ∧
    (∀ a b : Int, -9223372036 ≤ a → a < b → b ≤ 9223372036 →
      ParseDuration a < ParseDuration b) := by
  refine ⟨fun _ => rfl, fun n => wrapInt64_range (n * 1000000000), by decide, by decide,
    fun n hlo hhi => secondsToDuration_exact n hlo hhi, ?_⟩
  intro a b hlo hab hhi
  have ha : ParseDuration a = a * 1000000000 := secondsToDuration_exact a hlo (by omega)
  have hb : ParseDuration b = b * 1000000000 := secondsToDuration_exact b (by omega) hhi
  rw [ha, hb]
  exact Int.mul_lt_mul_of_pos_right hab (by decide)

/-! ## UpdateStream: limits and ignored fields -/

/-- C29 fails as stated: the stored stream has non-negative MaxBytes, MaxMsgs and
MaxAge, the patch sets MaxAge to 10000000000 seconds, and the descriptor
UpdateStream submits has the negative MaxAge -8446744073709551616 ns, the
product 10^19 wrapped into 64 bits. -/
theorem UpdateStream_limits_counterexample :
    0 ≤ ordersStream.MaxBytes ∧ 0 ≤ ordersStream.MaxMsgs ∧ 0 ≤ ordersStream.MaxAge ∧
    ∃ submitted : NatsStreamConfig,
      (UpdateStream ordersJetStream { Name := "ORDERS", MaxAge := 10000000000 } 0).calls =
        [TransportCall.streamInfo "ORDERS", TransportCall.updateStream submitted] ∧
      submitted.MaxAge = wrapInt64 (10000000000 * 1000000000) ∧
      submitted.MaxAge = -8446744073709551616 ∧ ¬ (0 ≤ submitted.MaxAge) := by
  refine ⟨by decide, by decide, by decide, _, rfl, by decide, by decide, by decide⟩

/-- C29, amended. For every existing descriptor whose MaxBytes, MaxMsgs and
MaxAge are non-negative and every patch, the descriptor UpdateStream submits has
non-negative MaxBytes and MaxMsgs; its MaxAge is the existing one when the
patch's MaxAge is not positive, and otherwise the patch's seconds times 10^9 ns
in 64-bit signed arithmetic, which is non-negative whenever the patch's MaxAge
is at most 9223372036. -/
theorem UpdateStream_limits {σ : Type} (js : JetStreamContext σ)
    (config : StreamConfig) (s s1 : σ) (info : StreamInfo) (hname : config.Name ≠ "")
    (hinfo : js.StreamInfo config.Name s = (Except.ok info, s1))
    (hbytes : 0 ≤ info.Config.MaxBytes) (hmsgs : 0 ≤ info.Config.MaxMsgs)
    (hage : 0 ≤ info.Config.MaxAge) :
    ∃ submitted : NatsStreamConfig,
      (UpdateStream ⟨some js⟩ config s).calls =
        [TransportCall.streamInfo config.Name, TransportCall.updateStream submitted] ∧
      0 ≤ submitted.MaxBytes ∧ 0 ≤ submitted.MaxMsgs ∧
      submitted.MaxAge =
        (if 0 < config.MaxAge then wrapInt64 (config.MaxAge * 1000000000)
          else info.Config.MaxAge) ∧
      (config.MaxAge ≤ 9223372036 → 0 ≤ submitted.MaxAge) := by
  refine ⟨UpdateStream.merge info.Config config,
    UpdateStream_run js config s s1 info hname hinfo, ?_, ?_, ?_, ?_⟩
  · rw [merge_MaxBytes]
    split_ifs with h
    · exact le_of_lt h
    · exact hbytes
  · rw [merge_MaxMsgs]
    split_ifs with h
    · exact le_of_lt h
    · exact hmsgs
  · rw [merge_MaxAge]
    rfl
  · intro hle
    rw [merge_MaxAge]
    split_ifs with h
    · rw [secondsToDuration_exact _ (by omega) hle]
      exact Int.mul_nonneg (le_of_lt h) (by decide)
    · exact hage

/-- C29 amended, at a concrete run: a patch with MaxBytes = -5 and MaxAge = 60
against the stored stream is submitted with MaxBytes 4096 and MaxAge 60 s. -/
theorem UpdateStream_limits_witness :
    ∃ submitted : NatsStreamConfig,
      (UpdateStream ordersJetStream { Name := "ORDERS", MaxBytes := -5, MaxAge := 60 } 0).calls =
        [TransportCall.streamInfo "ORDERS", TransportCall.updateStream submitted] ∧
      0 ≤ submitted.MaxBytes ∧ 0 ≤ submitted.MaxMsgs ∧ 0 ≤ submitted.MaxAge := by
  obtain ⟨d, hcalls, hb, hm, _, ha⟩ :=
    UpdateStream_limits (fixedTransport ordersStream ordersConsumer)
      { Name := "ORDERS", MaxBytes := -5, MaxAge := 60 } 0 1 ⟨ordersStream⟩ (by decide) rfl
      (by decide) (by decide) (by decide)
  exact ⟨d, hcalls, hb, hm, ha (by decide)⟩

/-- C30. UpdateStream ignores the patch's Retention, Discard and Storage: two
patches that agree on Name, Subjects, MaxBytes, MaxMsgs, MaxAge and Replicas
give the same run, with the same transport calls, error and final state; and
when the lookup returns the existing descriptor, the one descriptor submitted
for either patch has the existing descriptor's Name, Retention, Discard, Storage
and untouched library fields. -/
theorem UpdateStream_ignores_policies {σ : Type} (j : JetStream σ)
    (patch1 patch2 : StreamConfig) (s : σ)
    (hName : patch1.Name = patch2.Name) (hSubjects : patch1.Subjects = patch2.Subjects)
    (hMaxBytes : patch1.MaxBytes = patch2.MaxBytes) (hMaxMsgs : patch1.MaxMsgs = patch2.MaxMsgs)
    (hMaxAge : patch1.MaxAge = patch2.MaxAge) (hReplicas : patch1.Replicas = patch2.Replicas) :
    UpdateStream j patch1 s = UpdateStream j patch2 s ∧
    (∀ (js : JetStreamContext σ) (info : StreamInfo) (s1 : σ),
      j.js = some js → patch1.Name ≠ "" →
      js.StreamInfo patch1.Name s = (Except.ok info, s1) →
      ∃ submitted : NatsStreamConfig,
        submittedStreamUpdates (UpdateStream j patch1 s).calls = [submitted] ∧
        submittedStreamUpdates (UpdateStream j patch2 s).calls = [submitted] ∧
        submitted.Name = info.Config.Name ∧
        submitted.Retention = info.Config.Retention ∧
        submitted.Discard = info.Config.Discard ∧
        submitted.Storage = info.Config.Storage ∧
        submitted.Other = info.Config.Other) := by
  have hsame : UpdateStream j patch1 s = UpdateStream j patch2 s := by
    have hp : patch2 =
        { patch1 with
          Retention := patch2.Retention, Discard := patch2.Discard,
          Storage := patch2.Storage } := by
      cases patch1
      cases patch2
      simp_all
    rw [hp]
    rfl
  refine ⟨hsame, ?_⟩
  intro js info s1 hjs hname hinfo
  obtain ⟨hret, hdis, hsto, hoth⟩ := merge_rest info.Config patch1
  have hj : j = ⟨some js⟩ := by
    cases j
    simp_all
  refine ⟨UpdateStream.merge info.Config patch1, ?_, ?_, merge_Name _ _, hret, hdis, hsto, hoth⟩
  · rw [hj]
    exact UpdateStream_submitted js patch1 s s1 info hname hinfo
  · rw [← hsame, hj]
    exact UpdateStream_submitted js patch1 s s1 info hname hinfo

/-- C30 at a concrete run: one patch asks for retention "interest", the other
for storage "memory"; both submit the stored stream with MaxMsgs = 5 and the
stored Limits retention and File storage. -/
theorem UpdateStream_ignores_policies_witness :
    UpdateStream ordersJetStream { Name := "ORDERS", MaxMsgs := 5, Retention := "interest" } 0 =
      UpdateStream ordersJetStream
        { Name := "ORDERS", MaxMsgs := 5, Storage := "memory", Discard := "new" } 0 ∧
    submittedStreamUpdates
      (UpdateStream ordersJetStream
        { Name := "ORDERS", MaxMsgs := 5, Retention := "interest" } 0).calls =
      [{ ordersStream with MaxMsgs := 5 }] :=
  have h := UpdateStream_ignores_policies ordersJetStream
    { Name := "ORDERS", MaxMsgs := 5, Retention := "interest" }
    { Name := "ORDERS", MaxMsgs := 5, Storage := "memory", Discard := "new" } 0
    rfl rfl rfl rfl rfl rfl
  ⟨h.1, by decide⟩

end XK6Nats
